import Mathlib

/-!
# Verification of the PolkaMono checkout/order/payment lifecycle engine

Shallow embedding of the order-lifecycle core of `packages/api`:
`payment_service.py` (`update_order_status`, `record_status_event`,
`generate_order_number`, `_compute_shipping_for_brand`, `create_order_test`,
`create_payment`) and the order endpoints of `main.py`
(`admin_cancel_order`, `mark_order_returned`, `update_order_tracking`).

Modelling conventions:
* Python ints are modelled as `Int` (stock, quantities, purchase counters)
  and row ids as `Nat`.  Python floats carrying money are modelled as exact
  `Int` amounts: every verified claim is about exact sums, comparisons and
  the `or`-falsiness of `0.0`, all of which are value-exact and independent
  of the numeric representation; no claim concerns float rounding.
* The SQLAlchemy session is a pair of database snapshots: `committed` (what
  other transactions can see) and `current` (the working state including
  flushed-but-uncommitted rows).  `commit` publishes `current`; a Python
  exception propagating out of a request discards `current` (the session is
  closed without commit, see `database.get_db`).
* The random 5-digit order-number draw (`random.choices(string.digits, k=5)`)
  is modelled by an explicit stream of candidate strings.
* Delivery-snapshot strings do not affect any verified property; the
  delivery-completeness check `_validate_delivery_info` is modelled as a
  boolean field on the user row.
-/

deriving instance DecidableEq for Except

/-- Model of `models.OrderStatus`: the canonical status enum. -/
inductive OrderStatus : Type
  | created
  | pending
  | paid
  | shipped
  | returned
  | partiallyReturned
  | canceled
deriving DecidableEq, Repr

/-- Model of `models.OrderStatusEvent`: one immutable audit row per transition. -/
structure StatusEvent : Type where
  order_id : Nat
  from_status : Option OrderStatus
  to_status : OrderStatus
  actor_type : String
  actor_id : Option String
  note : Option String
deriving DecidableEq, Repr

/-- Model of `models.OrderItem`: one line of an order (variant reference + quantity). -/
structure OrderItem : Type where
  product_variant_id : Nat
  quantity : Int
deriving DecidableEq, Repr

/-- Model of `models.Order`: one order per brand within a checkout. -/
structure Order : Type where
  id : Nat
  checkout_id : Option Nat
  brand_id : Option Nat
  order_number : String
  user_id : Option Nat
  subtotal : Option Int
  shipping_cost : Option Int
  total_amount : Int
  status : OrderStatus
  tracking_number : Option String
  tracking_link : Option String
  items : List OrderItem
deriving DecidableEq, Repr

/-- Model of `models.ProductVariant`: size-specific inventory row.  The indirection
through `ProductColorVariant` is collapsed into a direct `product_id`
(the code only uses the `variant.product` convenience property). -/
structure ProductVariant : Type where
  id : Nat
  product_id : Nat
  stock_quantity : Int
deriving DecidableEq, Repr

/-- Model of `models.Product`: the fields the lifecycle engine reads. -/
structure Product : Type where
  id : Nat
  brand_id : Nat
  price : Int
  purchase_count : Int
deriving DecidableEq, Repr

/-- Model of `models.Brand`: shipping configuration fields. -/
structure Brand : Type where
  id : Nat
  min_free_shipping : Option Int
  shipping_price : Option Int
deriving DecidableEq, Repr

/-- Model of `models.Checkout`: one per payment session. -/
structure Checkout : Type where
  id : Nat
  user_id : Nat
  total_amount : Int
deriving DecidableEq, Repr

/-- Model of `models.Payment`: gateway payment mirror row. -/
structure Payment : Type where
  id : String
  order_id : Option Nat
  checkout_id : Option Nat
  amount : Int
  currency : String
  status : String
deriving DecidableEq, Repr

/-- A user row; `delivery_ok` abstracts `_validate_delivery_info`
(whether the profile/shipping rows carry complete delivery data). -/
structure UserRec : Type where
  id : Nat
  delivery_ok : Bool
deriving DecidableEq, Repr

/-- The relational store visible to the lifecycle engine. -/
structure DB : Type where
  users : List UserRec
  brands : List Brand
  products : List Product
  variants : List ProductVariant
  checkouts : List Checkout
  orders : List Order
  payments : List Payment
  events : List StatusEvent
deriving DecidableEq, Repr

namespace DB

/-- Query `db.query(Order).filter(Order.id == order_id).first()` -/
def findOrder (db : DB) (oid : Nat) : Option Order :=
  db.orders.find? (fun o => o.id = oid)

/-- Query `db.query(ProductVariant).filter(ProductVariant.id == vid).first()` -/
def findVariant (db : DB) (vid : Nat) : Option ProductVariant :=
  db.variants.find? (fun v => v.id = vid)

/-- Query `db.query(Product).filter(Product.id == pid).first()` -/
def findProduct (db : DB) (pid : Nat) : Option Product :=
  db.products.find? (fun p => p.id = pid)

/-- Query `db.query(Brand).filter(Brand.id == bid).first()` -/
def findBrand (db : DB) (bid : Nat) : Option Brand :=
  db.brands.find? (fun b => b.id = bid)

/-- Query `db.query(User).filter(User.id == uid).first()` -/
def findUser (db : DB) (uid : Nat) : Option UserRec :=
  db.users.find? (fun u => u.id = uid)

/-- Mutation `variant.stock_quantity += d` (in place, on the row with id `vid`). -/
def adjustStock (db : DB) (vid : Nat) (d : Int) : DB :=
  { db with
    variants := db.variants.map fun v =>
      if v.id = vid then { v with stock_quantity := v.stock_quantity + d } else v }

/-- Mutation `product.purchase_count = c` (in place, on the row with id `pid`). -/
def setPurchaseCount (db : DB) (pid : Nat) (c : Int) : DB :=
  { db with
    products := db.products.map fun p =>
      if p.id = pid then { p with purchase_count := c } else p }

/-- Mutation `order.status = st` (in place, on the row with id `oid`). -/
def setOrderStatus (db : DB) (oid : Nat) (st : OrderStatus) : DB :=
  { db with
    orders := db.orders.map fun o =>
      if o.id = oid then { o with status := st } else o }

/-- All persisted `Order.order_number` values. -/
def orderNumbers (db : DB) : List String :=
  db.orders.map (fun o => o.order_number)

/-- A fresh order id (the real rows use `uuid4`; any id unused by the
orders table is a faithful model of that freshness). -/
def freshOrderId (db : DB) : Nat :=
  (db.orders.map (fun o => o.id)).foldr max 0 + 1

/-- A fresh checkout id. -/
def freshCheckoutId (db : DB) : Nat :=
  (db.checkouts.map (fun c => c.id)).foldr max 0 + 1

end DB

/-- Model of `payment_service.record_status_event`: append an audit row; the caller
passes the order before its `status` field is overwritten, so `from_status`
is the old status. -/
def record_status_event (db : DB) (order : Order) (to_status : OrderStatus)
    (actor_type : String) (actor_id : Option String) (note : Option String) : DB :=
  { db with
    events := db.events ++
      [{ order_id := order.id
         from_status := some order.status
         to_status := to_status
         actor_type := actor_type
         actor_id := actor_id
         note := note }] }

/-- One step of the `purchase_count` increment loop in
`payment_service.update_order_status` (order entering PAID): look the item's
variant up in the locked batch, then its product, and add the item quantity. -/
def incPurchaseForItem (db : DB) (it : OrderItem) : DB :=
  match db.findVariant it.product_variant_id with
  | none => db
  | some v =>
    match db.findProduct v.product_id with
    | none => db
    | some p => db.setPurchaseCount p.id (p.purchase_count + it.quantity)

/-- One step of the `purchase_count` decrement loop (order leaving PAID):
`product.purchase_count = max(0, product.purchase_count - quantity)`. -/
def decPurchaseForItem (db : DB) (it : OrderItem) : DB :=
  match db.findVariant it.product_variant_id with
  | none => db
  | some v =>
    match db.findProduct v.product_id with
    | none => db
    | some p => db.setPurchaseCount p.id (max 0 (p.purchase_count - it.quantity))

/-- One step of the stock-restoration loop (order entering CANCELED or
RETURNED): `variant.stock_quantity += item.quantity` when the variant was
found by the batch lock query, otherwise skip. -/
def restoreStockForItem (db : DB) (it : OrderItem) : DB :=
  match db.findVariant it.product_variant_id with
  | none => db
  | some _ => db.adjustStock it.product_variant_id it.quantity

/-- The `purchase_count` adjustment block of `update_order_status`
(`if old_status != status: if status == PAID and old_status != PAID ... elif
old_status == PAID and status != PAID ...`); `order` still carries the old
status. -/
def purchasePhase (db : DB) (order : Order) (status : OrderStatus) : DB :=
  if order.status ≠ status then
    if status = OrderStatus.paid ∧ order.status ≠ OrderStatus.paid then
      order.items.foldl incPurchaseForItem db
    else if order.status = OrderStatus.paid ∧ status ≠ OrderStatus.paid then
      order.items.foldl decPurchaseForItem db
    else db
  else db

/-- The stock-restoration block of `update_order_status` (`if status in
(CANCELED, RETURNED) and old_status not in (CANCELED, RETURNED): ...`). -/
def restorePhase (db : DB) (order : Order) (status : OrderStatus) : DB :=
  if (status = OrderStatus.canceled ∨ status = OrderStatus.returned) ∧
      ¬(order.status = OrderStatus.canceled ∨ order.status = OrderStatus.returned) then
    order.items.foldl restoreStockForItem db
  else db

/-- Model of `payment_service.update_order_status(db, order_id, status, actor_type,
actor_id, note)`: load + lock the order; if absent, do nothing (only a log
line).  Otherwise adjust purchase counters on transitions to/from PAID,
restore stock on transitions into {CANCELED, RETURNED} from outside that
set, append a `StatusEvent` row, and set the new status.  Note the event is
appended and the status overwritten even when `old_status == status`. -/
def update_order_status (db : DB) (order_id : Nat) (status : OrderStatus)
    (actor_type : String := "system") (actor_id : Option String := none)
    (note : Option String := none) : DB :=
  match db.findOrder order_id with
  | none => db
  | some order =>
    let db1 := purchasePhase db order status
    let db2 := restorePhase db1 order status
    let db3 := record_status_event db2 order status actor_type actor_id note
    db3.setOrderStatus order_id status

/-- Platform default shipping price, `payment_service.DEFAULT_SHIPPING_PRICE`. -/
def DEFAULT_SHIPPING_PRICE : Int := 350

/-- Model of `payment_service._compute_shipping_for_brand`: free shipping when
the brand has a threshold and the subtotal reaches it; otherwise the brand's
configured price, replaced by the platform default when the brand row is
missing or the price is `None` **or `0.0`** (Python `or` treats `0.0` as
falsy). -/
def compute_shipping_for_brand (db : DB) (brand_id : Nat) (subtotal : Int) : Int :=
  match db.findBrand brand_id with
  | none => DEFAULT_SHIPPING_PRICE
  | some brand =>
    let shipping_price :=
      match brand.shipping_price with
      | none => DEFAULT_SHIPPING_PRICE
      | some sp => if sp = 0 then DEFAULT_SHIPPING_PRICE else sp
    match brand.min_free_shipping with
    | some min_free => if min_free ≤ subtotal then 0 else shipping_price
    | none => shipping_price

/-- Model of `payment_service.generate_order_number` (all callers pass no
suffix): draw random 5-digit bases until one is not already an existing
`Order.order_number`.  The random draws are an explicit candidate stream;
`none` models only an exhausted stream. -/
def generate_order_number (candidates : List String) (existing : List String) :
    Option String :=
  candidates.find? (fun c => !(existing.contains c))

/-- Model of `schemas.CartItem`: one requested cart line. -/
structure CartItem : Type where
  product_variant_id : Nat
  quantity : Int
deriving DecidableEq, Repr

/-- One `(variant, quantity, price)` tuple stored in the `brand_items` dict of
`create_order_test` (the variant ORM object is represented by its id). -/
structure GroupEntry : Type where
  variant_id : Nat
  qty : Int
  price : Int
deriving DecidableEq, Repr

/-- Append an entry to an insertion-ordered brand dict
(`brand_items[bid].append(...)`, creating the key on first use). -/
def addToGroups (gs : List (Nat × List GroupEntry)) (bid : Nat) (e : GroupEntry) :
    List (Nat × List GroupEntry) :=
  match gs with
  | [] => [(bid, [e])]
  | (b, l) :: rest =>
    if b = bid then (b, l ++ [e]) :: rest
    else (b, l) :: addToGroups rest bid e

/-- The validation/grouping loop of `create_order_test`: for each cart line,
load + lock the variant, resolve its product, check stock against the
still-undecremented quantity, and group by `product.brand_id` in insertion
order.  The first failure aborts the whole checkout. -/
def groupItems (db : DB) : List CartItem → List (Nat × List GroupEntry) →
    Except String (List (Nat × List GroupEntry))
  | [], acc => Except.ok acc
  | item :: rest, acc =>
    match db.findVariant item.product_variant_id with
    | none => Except.error "variant not found"
    | some v =>
      match db.findProduct v.product_id with
      | none => Except.error "product not found"
      | some p =>
        if v.stock_quantity < item.quantity then Except.error "insufficient stock"
        else groupItems db rest (addToGroups acc p.brand_id ⟨v.id, item.quantity, p.price⟩)

/-- A SQLAlchemy session: `committed` is what the database holds (visible to
every other transaction), `current` additionally holds flushed-but-uncommitted
work.  A request that raises discards `current` (see `database.get_db`). -/
structure Session : Type where
  committed : DB
  current : DB
deriving DecidableEq, Repr

/-- Semantics of `db.commit()`: publish the working state. -/
def Session.commit (s : Session) : Session :=
  { s with committed := s.current }

/-- A session freshly opened on database `db`. -/
def Session.ofDB (db : DB) : Session :=
  { committed := db, current := db }

/-- Subtotal of one vendor group: `sum(qty * price for _, qty, price in ...)`. -/
def groupSubtotal (l : List GroupEntry) : Int :=
  (l.map (fun e => e.qty * e.price)).sum

/-- The Order row one iteration of the per-brand loop of `create_order_test`
flushes (before `update_order_status` drives it to PAID): subtotal is
Σ(qty × price) over the group's lines, shipping comes from the brand profile,
total is subtotal + shipping, and the number carries a `-N` suffix only in
multi-brand checkouts. -/
def groupNewOrder (cur : DB) (cid : Nat) (uid : Nat) (idx : Nat) (base : String)
    (multi : Bool) (bid : Nat) (l : List GroupEntry) : Order :=
  { id := cur.freshOrderId
    checkout_id := some cid
    brand_id := some bid
    order_number := if multi then base ++ "-" ++ toString (idx + 1) else base
    user_id := some uid
    subtotal := some (groupSubtotal l)
    shipping_cost := some (compute_shipping_for_brand cur bid (groupSubtotal l))
    total_amount := groupSubtotal l + compute_shipping_for_brand cur bid (groupSubtotal l)
    status := OrderStatus.created
    tracking_number := none
    tracking_link := none
    items := l.map (fun e => ⟨e.variant_id, e.qty⟩) }

/-- One iteration of the per-brand loop of `create_order_test`: compute
subtotal/shipping/total, create the Order row (with its items), decrement each
variant's stock, then drive the order to PAID through `update_order_status`. -/
def processGroup (cur : DB) (cid : Nat) (uid : Nat) (idx : Nat) (base : String)
    (multi : Bool) (bid : Nat) (l : List GroupEntry) : DB :=
  let order := groupNewOrder cur cid uid idx base multi bid l
  let cur1 := { cur with orders := cur.orders ++ [order] }
  let cur2 := l.foldl (fun c e => c.adjustStock e.variant_id (-e.qty)) cur1
  update_order_status cur2 order.id OrderStatus.paid "system" none none

/-- The `for idx, (brand_id, brand_item_list) in enumerate(brand_items.items())`
loop of `create_order_test`. -/
def processGroups (cid : Nat) (uid : Nat) (base : String) (multi : Bool) :
    DB → Nat → List (Nat × List GroupEntry) → DB
  | cur, _, [] => cur
  | cur, idx, (bid, l) :: rest =>
    processGroups cid uid base multi
      (processGroup cur cid uid idx base multi bid l) (idx + 1) rest

/-- Model of `payment_service.create_order_test`: validate the user and their
delivery info, validate and group the cart, flush a Checkout whose
`total_amount` is the caller-supplied `amount`, draw a shared order-number
base, create one PAID Order per brand group (suffixing `-N` only when more
than one group exists), record a succeeded Payment, and commit everything in a
single transaction.  Returns the checkout id.  This definition models the
function's own session effects; the UNIQUE constraint the database enforces
on `orders.order_number` (models.py:496) is layered on top by
`create_order_test_checked` below. -/
def create_order_test (s : Session) (user_id : Nat) (amount : Int)
    (currency : String) (items : List CartItem) (candidates : List String)
    (payment_id : String) : Session × Except String Nat :=
  match s.current.findUser user_id with
  | none => (s, Except.error "user not found")
  | some u =>
    if ¬ u.delivery_ok then (s, Except.error "missing delivery info")
    else
      match groupItems s.current items [] with
      | Except.error e => (s, Except.error e)
      | Except.ok groups =>
        let cid := s.current.freshCheckoutId
        let cur := { s.current with
          checkouts := s.current.checkouts ++ [⟨cid, user_id, amount⟩] }
        match generate_order_number candidates cur.orderNumbers with
        | none => ({ s with current := cur }, Except.error "candidate stream exhausted")
        | some base =>
          let multi := decide (groups.length > 1)
          let cur2 := processGroups cid user_id base multi cur 0 groups
          let cur3 := { cur2 with
            payments := cur2.payments ++
              [⟨payment_id, none, some cid, amount, currency, "succeeded"⟩] }
          (Session.commit { s with current := cur3 }, Except.ok cid)

/-- The database state `create_order_test` commits on success, named for the
theorems below: the flushed Checkout (whose `total_amount` is the
caller-supplied `amount`), the per-brand PAID orders, and the succeeded
Payment row. -/
def createOrderTestFinal (db : DB) (uid : Nat) (amount : Int) (currency : String)
    (groups : List (Nat × List GroupEntry)) (base : String) (pid : String) : DB :=
  let cid := db.freshCheckoutId
  let cur0 := { db with checkouts := db.checkouts ++ [⟨cid, uid, amount⟩] }
  let cur2 := processGroups cid uid base (decide (groups.length > 1)) cur0 0 groups
  { cur2 with
    payments := cur2.payments ++ [⟨pid, none, some cid, amount, currency, "succeeded"⟩] }

/-- Model of a `create_order_test` request including the database-enforced
UNIQUE constraint on `orders.order_number` (`models.py:496`, schema created
from the models by `init_db`/`create_all`): the database raises
`IntegrityError` at `db.flush()` when an inserted order's number duplicates a
persisted or already-flushed one, and since `create_order_test` commits only
once at the end, that exception aborts the request with nothing committed.
Assuming the standing invariant that the pre-existing rows already satisfy
the constraint, a flush fails during the run iff the combined number list
has a duplicate, which is checked here before publishing the commit. -/
def create_order_test_checked (s : Session) (uid : Nat) (amount : Int)
    (currency : String) (items : List CartItem) (candidates : List String)
    (pid : String) : Session × Except String Nat :=
  match create_order_test s uid amount currency items candidates pid with
  | (s2, Except.error e) => (s2, Except.error e)
  | (s2, Except.ok cid) =>
    if s2.current.orderNumbers.Nodup then (s2, Except.ok cid)
    else ({ committed := s.committed, current := s2.current },
      Except.error "IntegrityError: duplicate order_number")

/-- The item loop of `create_payment`: for each line, load + lock the variant,
resolve the product, check stock, decrement stock and append the OrderItem row
to the freshly created order; return the working state at the point of the
first failure, if any. -/
def processPaymentItems (cur : DB) (oid : Nat) : List CartItem → DB × Option String
  | [] => (cur, none)
  | item :: rest =>
    match cur.findVariant item.product_variant_id with
    | none => (cur, some "variant not found")
    | some v =>
      match cur.findProduct v.product_id with
      | none => (cur, some "product not found")
      | some p =>
        if v.stock_quantity < item.quantity then (cur, some "insufficient stock")
        else
          let _price := p.price
          let cur1 := cur.adjustStock v.id (-item.quantity)
          let cur2 := { cur1 with
            orders := cur1.orders.map fun o =>
              if o.id = oid then { o with items := o.items ++ [⟨v.id, item.quantity⟩] }
              else o }
          processPaymentItems cur2 oid rest

/-- The external gateway's reply to `Payment.create` (adapter boundary). -/
structure GatewayPayment : Type where
  id : String
  amount : Int
  currency : String
  status : String
  confirmation_url : String
deriving DecidableEq, Repr

/-- Model of `payment_service.create_payment` (live mode): generate an order
number, look the user up, create the Order row and **commit it immediately**,
then run the item loop (stock decrements + OrderItem rows) and commit again,
then call the gateway and persist the Payment row with a final commit.  A
failure in the item loop raises after the first commit has already persisted
the bare Order. -/
def create_payment (s : Session) (user_id : Nat) (amount : Int)
    (currency : String) (items : List CartItem) (candidates : List String)
    (gw : GatewayPayment) : Session × Except String String :=
  match generate_order_number candidates s.current.orderNumbers with
  | none => (s, Except.error "candidate stream exhausted")
  | some order_number =>
    match s.current.findUser user_id with
    | none => (s, Except.error "user not found")
    | some _ =>
      let oid := s.current.freshOrderId
      let order : Order :=
        { id := oid
          checkout_id := none
          brand_id := none
          order_number := order_number
          user_id := some user_id
          subtotal := none
          shipping_cost := none
          total_amount := amount
          status := OrderStatus.created
          tracking_number := none
          tracking_link := none
          items := [] }
      let s1 := Session.commit
        { s with current := { s.current with orders := s.current.orders ++ [order] } }
      match processPaymentItems s1.current oid items with
      | (cur, some e) => ({ s1 with current := cur }, Except.error e)
      | (cur, none) =>
        let s2 := Session.commit { s1 with current := cur }
        let cur2 := { s2.current with
          payments := s2.current.payments ++
            [⟨gw.id, some oid, none, gw.amount, gw.currency, gw.status⟩] }
        (Session.commit { s2 with current := cur2 }, Except.ok gw.confirmation_url)

/-- Model of `main.admin_cancel_order`: admins may cancel any order unless it
is already CANCELED (`if order.status == OrderStatus.CANCELED: raise`); the
cancel goes through `update_order_status` and is committed. -/
def admin_cancel_order (s : Session) (is_admin : Bool) (order_id : Nat)
    (admin_id : String) : Session × Except String String :=
  if ¬ is_admin then (s, Except.error "Admin access required")
  else
    match s.current.findOrder order_id with
    | none => (s, Except.error "order not found")
    | some o =>
      if o.status = OrderStatus.canceled then (s, Except.error "order already canceled")
      else
        let cur := update_order_status s.current order_id OrderStatus.canceled
          "admin" (some admin_id) (some "admin cancelled")
        (Session.commit { s with current := cur }, Except.ok "canceled by admin")

/-- Model of `main.mark_order_returned` (brand endpoint): reject when the order
is missing, belongs to another brand, or — despite the docstring "Only SHIPPED
orders can be returned" — only when its status is CANCELED.  Past the guard,
`main.py:1984` calls `payment_service.update_order_status(str(order.id),
OrderStatus.RETURNED.value)` without the `db` session argument, so Python
raises `TypeError` before any transition logic runs and the request fails with
nothing committed. -/
def mark_order_returned (s : Session) (order_belongs_to_brand : Bool)
    (order_id : Nat) : Session × Except String String :=
  match s.current.findOrder order_id with
  | none => (s, Except.error "order not found")
  | some o =>
    if ¬ order_belongs_to_brand then
      (s, Except.error "Order does not belong to your brand")
    else if o.status = OrderStatus.canceled then
      (s, Except.error "Only SHIPPED orders can be marked as returned")
    else
      (s, Except.error "TypeError: update_order_status missing required argument")

/-- Semantics of `tracking_data.X.strip() or None` when the field is present:
an empty payload clears the field, a nonblank one replaces it (payload strings
are taken as already whitespace-stripped). -/
def applyTracking (payload : Option String) (old : Option String) : Option String :=
  match payload with
  | none => old
  | some t => if t = "" then none else some t

/-- Model of `main.update_order_tracking` (brand endpoint): update the tracking
fields; when the order is PAID and both fields are now set, `main.py:1943`
calls `payment_service.update_order_status(str(order.id),
OrderStatus.SHIPPED.value)` without the `db` session argument, so Python
raises `TypeError`, the request fails, and not even the tracking-field update
is committed.  Otherwise the tracking update alone is committed. -/
def update_order_tracking (s : Session) (order_belongs_to_brand : Bool)
    (order_id : Nat) (tracking_number : Option String)
    (tracking_link : Option String) : Session × Except String String :=
  match s.current.findOrder order_id with
  | none => (s, Except.error "order not found")
  | some o =>
    if ¬ order_belongs_to_brand then
      (s, Except.error "Order does not belong to your brand")
    else
      let o' := { o with
        tracking_number := applyTracking tracking_number o.tracking_number
        tracking_link := applyTracking tracking_link o.tracking_link }
      let cur := { s.current with
        orders := s.current.orders.map fun x => if x.id = order_id then o' else x }
      if o'.status = OrderStatus.paid ∧ o'.tracking_number ≠ none ∧
          o'.tracking_link ≠ none then
        ({ s with current := cur },
         Except.error "TypeError: update_order_status missing required argument")
      else
        (Session.commit { s with current := cur }, Except.ok "tracking updated")

/-- The product a cart/order line resolves to (`variant.product`), if any. -/
def itemPid (db : DB) (it : OrderItem) : Option Nat :=
  (db.findVariant it.product_variant_id).map (fun v => v.product_id)

/-- Sum of `Order.total_amount` over the orders of one checkout. -/
def checkoutOrdersTotal (db : DB) (cid : Nat) : Int :=
  ((db.orders.filter (fun o => o.checkout_id = some cid)).map
    (fun o => o.total_amount)).sum

/-- The order numbers of one checkout's orders, in table order. -/
def checkoutOrderNumbers (db : DB) (cid : Nat) : List String :=
  (db.orders.filter (fun o => o.checkout_id = some cid)).map
    (fun o => o.order_number)

/-- The total the per-brand loop accumulates into its (never persisted)
`total_checkout` variable: sum over groups of subtotal + shipping. -/
def groupsTotal (db : DB) (groups : List (Nat × List GroupEntry)) : Int :=
  (groups.map (fun g =>
    groupSubtotal g.2 + compute_shipping_for_brand db g.1 (groupSubtotal g.2))).sum

/-- The order numbers `create_order_test` assigns to `n` consecutive vendor
groups starting at enumeration index `idx`: the shared base, `-N`-suffixed
exactly when the checkout has more than one vendor group. -/
def groupNumbers (base : String) (multi : Bool) (idx : Nat) (n : Nat) : List String :=
  (List.range n).map (fun i =>
    if multi then base ++ "-" ++ toString (idx + i + 1) else base)

/-- Shipping cost as claim C6 words it ("the vendor's configured shipping
price, or the platform default when unset"): stated from the spec, to be
compared with `compute_shipping_for_brand` as translated from the source. -/
def claimed_shipping (min_free_shipping : Option Int) (shipping_price : Option Int)
    (subtotal : Int) : Int :=
  match min_free_shipping with
  | some m => if m ≤ subtotal then 0 else shipping_price.getD DEFAULT_SHIPPING_PRICE
  | none => shipping_price.getD DEFAULT_SHIPPING_PRICE

/-- A small concrete store: one buyer, two brands (A: free shipping from 100,
price 10; B: flat price 5), three products (50/30 from A, 20 from B), one
variant each with stock 3. -/
def exDB : DB :=
  { users := [⟨1, true⟩]
    brands := [⟨10, some 100, some 10⟩, ⟨20, none, some 5⟩]
    products := [⟨100, 10, 50, 0⟩, ⟨101, 10, 30, 0⟩, ⟨102, 20, 20, 0⟩]
    variants := [⟨1000, 100, 3⟩, ⟨1001, 101, 3⟩, ⟨1002, 102, 3⟩]
    checkouts := []
    orders := []
    payments := []
    events := [] }

/-- The spec's scenario cart: two items of brand A (50, 30), one of brand B (20). -/
def exCart : List CartItem := [⟨1000, 1⟩, ⟨1001, 1⟩, ⟨1002, 1⟩]

/-- A concrete existing order (status CREATED, one line of variant 1000). -/
def exOrder : Order :=
  { id := 1
    checkout_id := none
    brand_id := some 10
    order_number := "11111"
    user_id := some 1
    subtotal := none
    shipping_cost := none
    total_amount := 50
    status := OrderStatus.created
    tracking_number := none
    tracking_link := none
    items := [⟨1000, 1⟩] }

/-- The concrete store together with the existing order. -/
def exDBo : DB := { exDB with orders := [exOrder] }

/-! ## Infrastructure lemmas -/

lemma find?_map_patch {α : Type} (l : List α) (f : α → α) (p : α → Bool)
    (hp : ∀ a, p (f a) = p a) : (l.map f).find? p = (l.find? p).map f := by
  induction l with
  | nil => rfl
  | cons a t ih =>
    cases h : p a with
    | true =>
      rw [List.find?_cons_of_pos _ h, List.map_cons,
        List.find?_cons_of_pos _ (by rw [hp, h]), Option.map_some']
    | false =>
      rw [List.find?_cons_of_neg _ (by simp [h]), List.map_cons,
        List.find?_cons_of_neg _ (by simp [hp, h]), ih]

lemma foldl_proj_const {α β : Type} (proj : DB → β) (f : DB → α → DB)
    (h : ∀ db a, proj (f db a) = proj db) :
    ∀ (l : List α) (db : DB), proj (l.foldl f db) = proj db := by
  intro l
  induction l with
  | nil => intro db; rfl
  | cons a t ih => intro db; rw [List.foldl_cons, ih, h]

namespace DB

@[simp] lemma adjustStock_orders (db : DB) (vid : Nat) (d : Int) :
    (db.adjustStock vid d).orders = db.orders := rfl

@[simp] lemma adjustStock_products (db : DB) (vid : Nat) (d : Int) :
    (db.adjustStock vid d).products = db.products := rfl

@[simp] lemma adjustStock_events (db : DB) (vid : Nat) (d : Int) :
    (db.adjustStock vid d).events = db.events := rfl

@[simp] lemma adjustStock_checkouts (db : DB) (vid : Nat) (d : Int) :
    (db.adjustStock vid d).checkouts = db.checkouts := rfl

@[simp] lemma adjustStock_brands (db : DB) (vid : Nat) (d : Int) :
    (db.adjustStock vid d).brands = db.brands := rfl

@[simp] lemma adjustStock_payments (db : DB) (vid : Nat) (d : Int) :
    (db.adjustStock vid d).payments = db.payments := rfl

@[simp] lemma adjustStock_users (db : DB) (vid : Nat) (d : Int) :
    (db.adjustStock vid d).users = db.users := rfl

@[simp] lemma setPurchaseCount_orders (db : DB) (pid : Nat) (c : Int) :
    (db.setPurchaseCount pid c).orders = db.orders := rfl

@[simp] lemma setPurchaseCount_variants (db : DB) (pid : Nat) (c : Int) :
    (db.setPurchaseCount pid c).variants = db.variants := rfl

@[simp] lemma setPurchaseCount_events (db : DB) (pid : Nat) (c : Int) :
    (db.setPurchaseCount pid c).events = db.events := rfl

@[simp] lemma setPurchaseCount_checkouts (db : DB) (pid : Nat) (c : Int) :
    (db.setPurchaseCount pid c).checkouts = db.checkouts := rfl

@[simp] lemma setPurchaseCount_brands (db : DB) (pid : Nat) (c : Int) :
    (db.setPurchaseCount pid c).brands = db.brands := rfl

@[simp] lemma setPurchaseCount_payments (db : DB) (pid : Nat) (c : Int) :
    (db.setPurchaseCount pid c).payments = db.payments := rfl

@[simp] lemma setPurchaseCount_users (db : DB) (pid : Nat) (c : Int) :
    (db.setPurchaseCount pid c).users = db.users := rfl

@[simp] lemma setOrderStatus_variants (db : DB) (oid : Nat) (st : OrderStatus) :
    (db.setOrderStatus oid st).variants = db.variants := rfl

@[simp] lemma setOrderStatus_products (db : DB) (oid : Nat) (st : OrderStatus) :
    (db.setOrderStatus oid st).products = db.products := rfl

@[simp] lemma setOrderStatus_events (db : DB) (oid : Nat) (st : OrderStatus) :
    (db.setOrderStatus oid st).events = db.events := rfl

@[simp] lemma setOrderStatus_checkouts (db : DB) (oid : Nat) (st : OrderStatus) :
    (db.setOrderStatus oid st).checkouts = db.checkouts := rfl

@[simp] lemma setOrderStatus_brands (db : DB) (oid : Nat) (st : OrderStatus) :
    (db.setOrderStatus oid st).brands = db.brands := rfl

@[simp] lemma setOrderStatus_payments (db : DB) (oid : Nat) (st : OrderStatus) :
    (db.setOrderStatus oid st).payments = db.payments := rfl

lemma findOrder_setOrderStatus (db : DB) (oid : Nat) (st : OrderStatus) (w : Nat) :
    (db.setOrderStatus oid st).findOrder w =
      (db.findOrder w).map (fun o => if o.id = oid then { o with status := st } else o) := by
  unfold findOrder setOrderStatus
  exact find?_map_patch _ _ _ (fun o => by by_cases h : o.id = oid <;> simp [h])

lemma findVariant_adjustStock (db : DB) (vid : Nat) (d : Int) (w : Nat) :
    (db.adjustStock vid d).findVariant w =
      (db.findVariant w).map
        (fun v => if v.id = vid then { v with stock_quantity := v.stock_quantity + d } else v) := by
  unfold findVariant adjustStock
  exact find?_map_patch _ _ _ (fun v => by by_cases h : v.id = vid <;> simp [h])

lemma findProduct_setPurchaseCount (db : DB) (pid : Nat) (c : Int) (w : Nat) :
    (db.setPurchaseCount pid c).findProduct w =
      (db.findProduct w).map
        (fun p => if p.id = pid then { p with purchase_count := c } else p) := by
  unfold findProduct setPurchaseCount
  exact find?_map_patch _ _ _ (fun p => by by_cases h : p.id = pid <;> simp [h])

lemma findOrder_id (db : DB) (oid : Nat) (o : Order) (h : db.findOrder oid = some o) :
    o.id = oid := by
  have := List.find?_some h
  simpa using this

lemma findVariant_id (db : DB) (vid : Nat) (v : ProductVariant)
    (h : db.findVariant vid = some v) : v.id = vid := by
  have := List.find?_some h
  simpa using this

lemma findProduct_id (db : DB) (pid : Nat) (p : Product)
    (h : db.findProduct pid = some p) : p.id = pid := by
  have := List.find?_some h
  simpa using this

end DB

@[simp] lemma record_status_event_orders (db : DB) (o : Order) (st : OrderStatus)
    (a : String) (ai n : Option String) :
    (record_status_event db o st a ai n).orders = db.orders := rfl

@[simp] lemma record_status_event_variants (db : DB) (o : Order) (st : OrderStatus)
    (a : String) (ai n : Option String) :
    (record_status_event db o st a ai n).variants = db.variants := rfl

@[simp] lemma record_status_event_products (db : DB) (o : Order) (st : OrderStatus)
    (a : String) (ai n : Option String) :
    (record_status_event db o st a ai n).products = db.products := rfl

@[simp] lemma record_status_event_checkouts (db : DB) (o : Order) (st : OrderStatus)
    (a : String) (ai n : Option String) :
    (record_status_event db o st a ai n).checkouts = db.checkouts := rfl

@[simp] lemma record_status_event_brands (db : DB) (o : Order) (st : OrderStatus)
    (a : String) (ai n : Option String) :
    (record_status_event db o st a ai n).brands = db.brands := rfl

@[simp] lemma record_status_event_payments (db : DB) (o : Order) (st : OrderStatus)
    (a : String) (ai n : Option String) :
    (record_status_event db o st a ai n).payments = db.payments := rfl

lemma incPurchaseForItem_orders (db : DB) (it : OrderItem) :
    (incPurchaseForItem db it).orders = db.orders := by
  unfold incPurchaseForItem
  repeat' split
  all_goals rfl

lemma incPurchaseForItem_variants (db : DB) (it : OrderItem) :
    (incPurchaseForItem db it).variants = db.variants := by
  unfold incPurchaseForItem
  repeat' split
  all_goals rfl

lemma incPurchaseForItem_events (db : DB) (it : OrderItem) :
    (incPurchaseForItem db it).events = db.events := by
  unfold incPurchaseForItem
  repeat' split
  all_goals rfl

lemma incPurchaseForItem_checkouts (db : DB) (it : OrderItem) :
    (incPurchaseForItem db it).checkouts = db.checkouts := by
  unfold incPurchaseForItem
  repeat' split
  all_goals rfl

lemma incPurchaseForItem_brands (db : DB) (it : OrderItem) :
    (incPurchaseForItem db it).brands = db.brands := by
  unfold incPurchaseForItem
  repeat' split
  all_goals rfl

lemma incPurchaseForItem_payments (db : DB) (it : OrderItem) :
    (incPurchaseForItem db it).payments = db.payments := by
  unfold incPurchaseForItem
  repeat' split
  all_goals rfl

lemma decPurchaseForItem_orders (db : DB) (it : OrderItem) :
    (decPurchaseForItem db it).orders = db.orders := by
  unfold decPurchaseForItem
  repeat' split
  all_goals rfl

lemma decPurchaseForItem_variants (db : DB) (it : OrderItem) :
    (decPurchaseForItem db it).variants = db.variants := by
  unfold decPurchaseForItem
  repeat' split
  all_goals rfl

lemma decPurchaseForItem_events (db : DB) (it : OrderItem) :
    (decPurchaseForItem db it).events = db.events := by
  unfold decPurchaseForItem
  repeat' split
  all_goals rfl

lemma decPurchaseForItem_checkouts (db : DB) (it : OrderItem) :
    (decPurchaseForItem db it).checkouts = db.checkouts := by
  unfold decPurchaseForItem
  repeat' split
  all_goals rfl

lemma decPurchaseForItem_brands (db : DB) (it : OrderItem) :
    (decPurchaseForItem db it).brands = db.brands := by
  unfold decPurchaseForItem
  repeat' split
  all_goals rfl

lemma decPurchaseForItem_payments (db : DB) (it : OrderItem) :
    (decPurchaseForItem db it).payments = db.payments := by
  unfold decPurchaseForItem
  repeat' split
  all_goals rfl

lemma restoreStockForItem_orders (db : DB) (it : OrderItem) :
    (restoreStockForItem db it).orders = db.orders := by
  unfold restoreStockForItem
  repeat' split
  all_goals rfl

lemma restoreStockForItem_products (db : DB) (it : OrderItem) :
    (restoreStockForItem db it).products = db.products := by
  unfold restoreStockForItem
  repeat' split
  all_goals rfl

lemma restoreStockForItem_events (db : DB) (it : OrderItem) :
    (restoreStockForItem db it).events = db.events := by
  unfold restoreStockForItem
  repeat' split
  all_goals rfl

lemma restoreStockForItem_checkouts (db : DB) (it : OrderItem) :
    (restoreStockForItem db it).checkouts = db.checkouts := by
  unfold restoreStockForItem
  repeat' split
  all_goals rfl

lemma restoreStockForItem_brands (db : DB) (it : OrderItem) :
    (restoreStockForItem db it).brands = db.brands := by
  unfold restoreStockForItem
  repeat' split
  all_goals rfl

lemma restoreStockForItem_payments (db : DB) (it : OrderItem) :
    (restoreStockForItem db it).payments = db.payments := by
  unfold restoreStockForItem
  repeat' split
  all_goals rfl

lemma findVariant_congr (db1 db2 : DB) (h : db1.variants = db2.variants) (w : Nat) :
    db1.findVariant w = db2.findVariant w := by
  unfold DB.findVariant
  rw [h]

lemma findProduct_congr (db1 db2 : DB) (h : db1.products = db2.products) (w : Nat) :
    db1.findProduct w = db2.findProduct w := by
  unfold DB.findProduct
  rw [h]

lemma findBrand_congr (db1 db2 : DB) (h : db1.brands = db2.brands) (w : Nat) :
    db1.findBrand w = db2.findBrand w := by
  unfold DB.findBrand
  rw [h]

lemma findOrder_congr (db1 db2 : DB) (h : db1.orders = db2.orders) (w : Nat) :
    db1.findOrder w = db2.findOrder w := by
  unfold DB.findOrder
  rw [h]

/-- Stock-restoration fold: variants not referenced by any item keep their row. -/
lemma restore_fold_other (items : List OrderItem) :
    ∀ (db : DB) (w : Nat), w ∉ items.map (fun it => it.product_variant_id) →
      (items.foldl restoreStockForItem db).findVariant w = db.findVariant w := by
  induction items with
  | nil => intro db w _; rfl
  | cons hd t ih =>
    intro db w hw
    rw [List.map_cons, List.mem_cons] at hw
    push_neg at hw
    rw [List.foldl_cons, ih _ w hw.2]
    unfold restoreStockForItem
    cases hv : db.findVariant hd.product_variant_id with
    | none => rfl
    | some v =>
      rw [DB.findVariant_adjustStock]
      cases hw2 : db.findVariant w with
      | none => rfl
      | some x =>
        have hx := db.findVariant_id w x hw2
        simp [hx, hw.1]

/-- Stock-restoration fold: when item variant ids are pairwise distinct, each
item's variant gains exactly its quantity. -/
lemma restore_fold_self (items : List OrderItem) :
    ∀ (db : DB), (items.map (fun it => it.product_variant_id)).Nodup →
      ∀ it ∈ items, ∀ v, db.findVariant it.product_variant_id = some v →
        (items.foldl restoreStockForItem db).findVariant it.product_variant_id =
          some { v with stock_quantity := v.stock_quantity + it.quantity } := by
  induction items with
  | nil => intro db _ it h; cases h
  | cons hd t ih =>
    intro db hnd it hit v hv
    rw [List.map_cons, List.nodup_cons] at hnd
    rcases List.mem_cons.mp hit with rfl | hmem
    · -- the head item: its step adds the quantity, the tail never touches it
      rw [List.foldl_cons, restore_fold_other t _ _ hnd.1]
      unfold restoreStockForItem
      rw [hv, DB.findVariant_adjustStock, hv]
      have hid := db.findVariant_id _ v hv
      simp [hid]
    · -- a tail item: the head step leaves its variant row unchanged
      have hne : it.product_variant_id ≠ hd.product_variant_id := by
        intro he
        exact hnd.1 (he ▸ List.mem_map_of_mem (fun x => x.product_variant_id) hmem)
      rw [List.foldl_cons]
      have hpres : (restoreStockForItem db hd).findVariant it.product_variant_id =
          some v := by
        unfold restoreStockForItem
        cases hv0 : db.findVariant hd.product_variant_id with
        | none => exact hv
        | some v0 =>
          rw [DB.findVariant_adjustStock, hv]
          have hid := db.findVariant_id _ v hv
          simp [hid, hne]
      exact ih (restoreStockForItem db hd) hnd.2 it hmem v hpres

lemma itemPid_congr (db1 db2 : DB) (h : db1.variants = db2.variants) (it : OrderItem) :
    itemPid db1 it = itemPid db2 it := by
  unfold itemPid
  rw [findVariant_congr db1 db2 h]


lemma itemPid_some (db : DB) (it : OrderItem) (v : ProductVariant)
    (hv : db.findVariant it.product_variant_id = some v) :
    itemPid db it = some v.product_id := by
  unfold itemPid
  rw [hv]
  rfl

lemma inc_fold_other (items : List OrderItem) :
    ∀ (db : DB) (w : Nat), (∀ it ∈ items, itemPid db it ≠ some w) →
      (items.foldl incPurchaseForItem db).findProduct w = db.findProduct w := by
  induction items with
  | nil => intro db w _; rfl
  | cons hd t ih =>
    intro db w hw
    rw [List.foldl_cons]
    have hstep : (incPurchaseForItem db hd).findProduct w = db.findProduct w := by
      unfold incPurchaseForItem
      split
      · rfl
      next v hv =>
        split
        · rfl
        next p hp =>
          rw [DB.findProduct_setPurchaseCount]
          cases hw2 : db.findProduct w with
          | none => rfl
          | some x =>
            have hx := db.findProduct_id w x hw2
            have hpid := db.findProduct_id _ p hp
            have hne : w ≠ p.id := by
              intro he
              exact hw hd (List.mem_cons_self hd t)
                (by rw [itemPid_some db hd v hv, ← hpid, ← he])
            simp [hx, hne]
    rw [ih (incPurchaseForItem db hd) w ?_, hstep]
    intro it hit
    rw [itemPid_congr _ db (incPurchaseForItem_variants db hd) it]
    exact hw it (List.mem_cons_of_mem hd hit)

lemma inc_fold_self (items : List OrderItem) :
    ∀ (db : DB), (items.filterMap (itemPid db)).Nodup →
      ∀ it ∈ items, ∀ v p, db.findVariant it.product_variant_id = some v →
        db.findProduct v.product_id = some p →
        (items.foldl incPurchaseForItem db).findProduct v.product_id =
          some { p with purchase_count := p.purchase_count + it.quantity } := by
  induction items with
  | nil => intro db _ it h; cases h
  | cons hd t ih =>
    intro db hnd it hit v p hv hp
    rcases List.mem_cons.mp hit with rfl | hmem
    · -- head item: its step writes the new count, the tail never touches the product
      have hnd2 : v.product_id ∉ t.filterMap (itemPid db) ∧
          (t.filterMap (itemPid db)).Nodup := by
        rw [List.filterMap_cons, itemPid_some db it v hv, List.nodup_cons] at hnd
        exact hnd
      rw [List.foldl_cons]
      have hstep : (incPurchaseForItem db it).findProduct v.product_id =
          some { p with purchase_count := p.purchase_count + it.quantity } := by
        unfold incPurchaseForItem
        rw [hv]
        show (match db.findProduct v.product_id with
          | none => db
          | some p => db.setPurchaseCount p.id (p.purchase_count + it.quantity)).findProduct
            v.product_id = _
        rw [hp]
        show (db.setPurchaseCount p.id (p.purchase_count + it.quantity)).findProduct
            v.product_id = _
        rw [DB.findProduct_setPurchaseCount, hp]
        have hpid := db.findProduct_id _ p hp
        simp [hpid]
      rw [inc_fold_other t _ _ ?_, hstep]
      intro it2 hit2 he
      rw [itemPid_congr _ db (incPurchaseForItem_variants db it) it2] at he
      exact hnd2.1 (List.mem_filterMap.mpr ⟨it2, hit2, he⟩)
    · -- tail item: the head step leaves this item's product row unchanged
      have hmemt : v.product_id ∈ t.filterMap (itemPid db) :=
        List.mem_filterMap.mpr ⟨it, hmem, itemPid_some db it v hv⟩
      rw [List.foldl_cons]
      have hstepP : (incPurchaseForItem db hd).findProduct v.product_id = some p := by
        unfold incPurchaseForItem
        split
        · exact hp
        next v0 hv0 =>
          split
          · exact hp
          next p0 hp0 =>
            rw [DB.findProduct_setPurchaseCount, hp]
            have hid := db.findProduct_id _ p hp
            have hid0 := db.findProduct_id _ p0 hp0
            have hne : v.product_id ≠ p0.id := by
              intro he
              rw [List.filterMap_cons, itemPid_some db hd v0 hv0, List.nodup_cons] at hnd
              exact hnd.1 (by rw [← hid0, ← he]; exact hmemt)
            simp [hid, hne]
      have hstepV : (incPurchaseForItem db hd).findVariant it.product_variant_id =
          some v := by
        rw [findVariant_congr _ db (incPurchaseForItem_variants db hd)]
        exact hv
      have hndt : (t.filterMap (itemPid (incPurchaseForItem db hd))).Nodup := by
        have heq : t.filterMap (itemPid (incPurchaseForItem db hd)) =
            t.filterMap (itemPid db) :=
          List.filterMap_congr (fun x _ =>
            itemPid_congr _ db (incPurchaseForItem_variants db hd) x)
        rw [heq]
        cases hh : itemPid db hd with
        | none =>
          rw [List.filterMap_cons, hh] at hnd
          exact hnd
        | some q =>
          rw [List.filterMap_cons, hh, List.nodup_cons] at hnd
          exact hnd.2
      exact ih (incPurchaseForItem db hd) hndt it hmem v p hstepV hstepP

lemma dec_fold_other (items : List OrderItem) :
    ∀ (db : DB) (w : Nat), (∀ it ∈ items, itemPid db it ≠ some w) →
      (items.foldl decPurchaseForItem db).findProduct w = db.findProduct w := by
  induction items with
  | nil => intro db w _; rfl
  | cons hd t ih =>
    intro db w hw
    rw [List.foldl_cons]
    have hstep : (decPurchaseForItem db hd).findProduct w = db.findProduct w := by
      unfold decPurchaseForItem
      split
      · rfl
      next v hv =>
        split
        · rfl
        next p hp =>
          rw [DB.findProduct_setPurchaseCount]
          cases hw2 : db.findProduct w with
          | none => rfl
          | some x =>
            have hx := db.findProduct_id w x hw2
            have hpid := db.findProduct_id _ p hp
            have hne : w ≠ p.id := by
              intro he
              exact hw hd (List.mem_cons_self hd t)
                (by rw [itemPid_some db hd v hv, ← hpid, ← he])
            simp [hx, hne]
    rw [ih (decPurchaseForItem db hd) w ?_, hstep]
    intro it hit
    rw [itemPid_congr _ db (decPurchaseForItem_variants db hd) it]
    exact hw it (List.mem_cons_of_mem hd hit)

lemma dec_fold_self (items : List OrderItem) :
    ∀ (db : DB), (items.filterMap (itemPid db)).Nodup →
      ∀ it ∈ items, ∀ v p, db.findVariant it.product_variant_id = some v →
        db.findProduct v.product_id = some p →
        (items.foldl decPurchaseForItem db).findProduct v.product_id =
          some { p with purchase_count := max 0 (p.purchase_count - it.quantity) } := by
  induction items with
  | nil => intro db _ it h; cases h
  | cons hd t ih =>
    intro db hnd it hit v p hv hp
    rcases List.mem_cons.mp hit with rfl | hmem
    · have hnd2 : v.product_id ∉ t.filterMap (itemPid db) ∧
          (t.filterMap (itemPid db)).Nodup := by
        rw [List.filterMap_cons, itemPid_some db it v hv, List.nodup_cons] at hnd
        exact hnd
      rw [List.foldl_cons]
      have hstep : (decPurchaseForItem db it).findProduct v.product_id =
          some { p with purchase_count := max 0 (p.purchase_count - it.quantity) } := by
        unfold decPurchaseForItem
        rw [hv]
        show (match db.findProduct v.product_id with
          | none => db
          | some p => db.setPurchaseCount p.id (max 0 (p.purchase_count - it.quantity))).findProduct
            v.product_id = _
        rw [hp]
        show (db.setPurchaseCount p.id (max 0 (p.purchase_count - it.quantity))).findProduct
            v.product_id = _
        rw [DB.findProduct_setPurchaseCount, hp]
        have hpid := db.findProduct_id _ p hp
        simp [hpid]
      rw [dec_fold_other t _ _ ?_, hstep]
      intro it2 hit2 he
      rw [itemPid_congr _ db (decPurchaseForItem_variants db it) it2] at he
      exact hnd2.1 (List.mem_filterMap.mpr ⟨it2, hit2, he⟩)
    · have hmemt : v.product_id ∈ t.filterMap (itemPid db) :=
        List.mem_filterMap.mpr ⟨it, hmem, itemPid_some db it v hv⟩
      rw [List.foldl_cons]
      have hstepP : (decPurchaseForItem db hd).findProduct v.product_id = some p := by
        unfold decPurchaseForItem
        split
        · exact hp
        next v0 hv0 =>
          split
          · exact hp
          next p0 hp0 =>
            rw [DB.findProduct_setPurchaseCount, hp]
            have hid := db.findProduct_id _ p hp
            have hid0 := db.findProduct_id _ p0 hp0
            have hne : v.product_id ≠ p0.id := by
              intro he
              rw [List.filterMap_cons, itemPid_some db hd v0 hv0, List.nodup_cons] at hnd
              exact hnd.1 (by rw [← hid0, ← he]; exact hmemt)
            simp [hid, hne]
      have hstepV : (decPurchaseForItem db hd).findVariant it.product_variant_id =
          some v := by
        rw [findVariant_congr _ db (decPurchaseForItem_variants db hd)]
        exact hv
      have hndt : (t.filterMap (itemPid (decPurchaseForItem db hd))).Nodup := by
        have heq : t.filterMap (itemPid (decPurchaseForItem db hd)) =
            t.filterMap (itemPid db) :=
          List.filterMap_congr (fun x _ =>
            itemPid_congr _ db (decPurchaseForItem_variants db hd) x)
        rw [heq]
        cases hh : itemPid db hd with
        | none =>
          rw [List.filterMap_cons, hh] at hnd
          exact hnd
        | some q =>
          rw [List.filterMap_cons, hh, List.nodup_cons] at hnd
          exact hnd.2
      exact ih (decPurchaseForItem db hd) hndt it hmem v p hstepV hstepP

@[simp] lemma record_status_event_users (db : DB) (o : Order) (st : OrderStatus)
    (a : String) (ai n : Option String) :
    (record_status_event db o st a ai n).users = db.users := rfl

@[simp] lemma setOrderStatus_users (db : DB) (oid : Nat) (st : OrderStatus) :
    (db.setOrderStatus oid st).users = db.users := rfl

@[simp] lemma record_status_event_events (db : DB) (o : Order) (st : OrderStatus)
    (a : String) (ai n : Option String) :
    (record_status_event db o st a ai n).events =
      db.events ++ [⟨o.id, some o.status, st, a, ai, n⟩] := rfl

lemma purchasePhase_orders (db : DB) (o : Order) (st : OrderStatus) :
    (purchasePhase db o st).orders = db.orders := by
  unfold purchasePhase
  split
  · split
    · exact foldl_proj_const DB.orders incPurchaseForItem incPurchaseForItem_orders _ db
    · split
      · exact foldl_proj_const DB.orders decPurchaseForItem decPurchaseForItem_orders _ db
      · rfl
  · rfl

lemma purchasePhase_variants (db : DB) (o : Order) (st : OrderStatus) :
    (purchasePhase db o st).variants = db.variants := by
  unfold purchasePhase
  split
  · split
    · exact foldl_proj_const DB.variants incPurchaseForItem incPurchaseForItem_variants _ db
    · split
      · exact foldl_proj_const DB.variants decPurchaseForItem decPurchaseForItem_variants _ db
      · rfl
  · rfl

lemma purchasePhase_events (db : DB) (o : Order) (st : OrderStatus) :
    (purchasePhase db o st).events = db.events := by
  unfold purchasePhase
  split
  · split
    · exact foldl_proj_const DB.events incPurchaseForItem incPurchaseForItem_events _ db
    · split
      · exact foldl_proj_const DB.events decPurchaseForItem decPurchaseForItem_events _ db
      · rfl
  · rfl

lemma purchasePhase_checkouts (db : DB) (o : Order) (st : OrderStatus) :
    (purchasePhase db o st).checkouts = db.checkouts := by
  unfold purchasePhase
  split
  · split
    · exact foldl_proj_const DB.checkouts incPurchaseForItem incPurchaseForItem_checkouts _ db
    · split
      · exact foldl_proj_const DB.checkouts decPurchaseForItem decPurchaseForItem_checkouts _ db
      · rfl
  · rfl

lemma purchasePhase_brands (db : DB) (o : Order) (st : OrderStatus) :
    (purchasePhase db o st).brands = db.brands := by
  unfold purchasePhase
  split
  · split
    · exact foldl_proj_const DB.brands incPurchaseForItem incPurchaseForItem_brands _ db
    · split
      · exact foldl_proj_const DB.brands decPurchaseForItem decPurchaseForItem_brands _ db
      · rfl
  · rfl

lemma purchasePhase_payments (db : DB) (o : Order) (st : OrderStatus) :
    (purchasePhase db o st).payments = db.payments := by
  unfold purchasePhase
  split
  · split
    · exact foldl_proj_const DB.payments incPurchaseForItem incPurchaseForItem_payments _ db
    · split
      · exact foldl_proj_const DB.payments decPurchaseForItem decPurchaseForItem_payments _ db
      · rfl
  · rfl

lemma restorePhase_orders (db : DB) (o : Order) (st : OrderStatus) :
    (restorePhase db o st).orders = db.orders := by
  unfold restorePhase
  split
  · exact foldl_proj_const DB.orders restoreStockForItem restoreStockForItem_orders _ db
  · rfl

lemma restorePhase_products (db : DB) (o : Order) (st : OrderStatus) :
    (restorePhase db o st).products = db.products := by
  unfold restorePhase
  split
  · exact foldl_proj_const DB.products restoreStockForItem restoreStockForItem_products _ db
  · rfl

lemma restorePhase_events (db : DB) (o : Order) (st : OrderStatus) :
    (restorePhase db o st).events = db.events := by
  unfold restorePhase
  split
  · exact foldl_proj_const DB.events restoreStockForItem restoreStockForItem_events _ db
  · rfl

lemma restorePhase_checkouts (db : DB) (o : Order) (st : OrderStatus) :
    (restorePhase db o st).checkouts = db.checkouts := by
  unfold restorePhase
  split
  · exact foldl_proj_const DB.checkouts restoreStockForItem restoreStockForItem_checkouts _ db
  · rfl

lemma restorePhase_brands (db : DB) (o : Order) (st : OrderStatus) :
    (restorePhase db o st).brands = db.brands := by
  unfold restorePhase
  split
  · exact foldl_proj_const DB.brands restoreStockForItem restoreStockForItem_brands _ db
  · rfl

lemma restorePhase_payments (db : DB) (o : Order) (st : OrderStatus) :
    (restorePhase db o st).payments = db.payments := by
  unfold restorePhase
  split
  · exact foldl_proj_const DB.payments restoreStockForItem restoreStockForItem_payments _ db
  · rfl

lemma incPurchaseForItem_users (db : DB) (it : OrderItem) :
    (incPurchaseForItem db it).users = db.users := by
  unfold incPurchaseForItem
  repeat' split
  all_goals rfl

lemma decPurchaseForItem_users (db : DB) (it : OrderItem) :
    (decPurchaseForItem db it).users = db.users := by
  unfold decPurchaseForItem
  repeat' split
  all_goals rfl

lemma restoreStockForItem_users (db : DB) (it : OrderItem) :
    (restoreStockForItem db it).users = db.users := by
  unfold restoreStockForItem
  repeat' split
  all_goals rfl

lemma purchasePhase_users (db : DB) (o : Order) (st : OrderStatus) :
    (purchasePhase db o st).users = db.users := by
  unfold purchasePhase
  split
  · split
    · exact foldl_proj_const DB.users incPurchaseForItem incPurchaseForItem_users _ db
    · split
      · exact foldl_proj_const DB.users decPurchaseForItem decPurchaseForItem_users _ db
      · rfl
  · rfl

lemma restorePhase_users (db : DB) (o : Order) (st : OrderStatus) :
    (restorePhase db o st).users = db.users := by
  unfold restorePhase
  split
  · exact foldl_proj_const DB.users restoreStockForItem restoreStockForItem_users _ db
  · rfl

/-- Unfolding of `update_order_status` when the order exists. -/
lemma update_order_status_found (db : DB) (oid : Nat) (st : OrderStatus)
    (a : String) (ai n : Option String) (o : Order) (ho : db.findOrder oid = some o) :
    update_order_status db oid st a ai n =
      (record_status_event (restorePhase (purchasePhase db o st) o st) o st a ai n).setOrderStatus
        oid st := by
  unfold update_order_status
  rw [ho]

/-- Unfolding of `update_order_status` when the order does not exist. -/
lemma update_order_status_notfound (db : DB) (oid : Nat) (st : OrderStatus)
    (a : String) (ai n : Option String) (ho : db.findOrder oid = none) :
    update_order_status db oid st a ai n = db := by
  unfold update_order_status
  rw [ho]

@[simp] lemma setOrderStatus_orders (db : DB) (oid : Nat) (st : OrderStatus) :
    (db.setOrderStatus oid st).orders =
      db.orders.map (fun o => if o.id = oid then { o with status := st } else o) := rfl

lemma update_order_status_checkouts (db : DB) (oid : Nat) (st : OrderStatus)
    (a : String) (ai n : Option String) :
    (update_order_status db oid st a ai n).checkouts = db.checkouts := by
  cases ho : db.findOrder oid with
  | none => rw [update_order_status_notfound db oid st a ai n ho]
  | some o =>
    rw [update_order_status_found db oid st a ai n o ho]
    simp [restorePhase_checkouts, purchasePhase_checkouts]

lemma update_order_status_brands (db : DB) (oid : Nat) (st : OrderStatus)
    (a : String) (ai n : Option String) :
    (update_order_status db oid st a ai n).brands = db.brands := by
  cases ho : db.findOrder oid with
  | none => rw [update_order_status_notfound db oid st a ai n ho]
  | some o =>
    rw [update_order_status_found db oid st a ai n o ho]
    simp [restorePhase_brands, purchasePhase_brands]

lemma update_order_status_payments (db : DB) (oid : Nat) (st : OrderStatus)
    (a : String) (ai n : Option String) :
    (update_order_status db oid st a ai n).payments = db.payments := by
  cases ho : db.findOrder oid with
  | none => rw [update_order_status_notfound db oid st a ai n ho]
  | some o =>
    rw [update_order_status_found db oid st a ai n o ho]
    simp [restorePhase_payments, purchasePhase_payments]

lemma update_order_status_users (db : DB) (oid : Nat) (st : OrderStatus)
    (a : String) (ai n : Option String) :
    (update_order_status db oid st a ai n).users = db.users := by
  cases ho : db.findOrder oid with
  | none => rw [update_order_status_notfound db oid st a ai n ho]
  | some o =>
    rw [update_order_status_found db oid st a ai n o ho]
    simp [restorePhase_users, purchasePhase_users]

lemma update_order_status_orders_found (db : DB) (oid : Nat) (st : OrderStatus)
    (a : String) (ai n : Option String) (o : Order) (ho : db.findOrder oid = some o) :
    (update_order_status db oid st a ai n).orders =
      db.orders.map (fun x => if x.id = oid then { x with status := st } else x) := by
  rw [update_order_status_found db oid st a ai n o ho]
  simp [restorePhase_orders, purchasePhase_orders]

lemma update_order_status_events_found (db : DB) (oid : Nat) (st : OrderStatus)
    (a : String) (ai n : Option String) (o : Order) (ho : db.findOrder oid = some o) :
    (update_order_status db oid st a ai n).events =
      db.events ++ [⟨oid, some o.status, st, a, ai, n⟩] := by
  rw [update_order_status_found db oid st a ai n o ho]
  simp [restorePhase_events, purchasePhase_events, db.findOrder_id oid o ho]

lemma findOrder_update_self (db : DB) (oid : Nat) (st : OrderStatus)
    (a : String) (ai n : Option String) (o : Order) (ho : db.findOrder oid = some o) :
    (update_order_status db oid st a ai n).findOrder oid = some { o with status := st } := by
  have horders : (update_order_status db oid st a ai n).orders =
      db.orders.map (fun x => if x.id = oid then { x with status := st } else x) :=
    update_order_status_orders_found db oid st a ai n o ho
  unfold DB.findOrder at ho ⊢
  rw [horders, find?_map_patch _ _ _
    (fun x => by by_cases h : x.id = oid <;> simp [h]), ho]
  simp [db.findOrder_id oid o ho]

lemma Order.set_status_self (x : Order) (st : OrderStatus) (h : x.status = st) :
    ({ x with status := st } : Order) = x := by
  cases x
  simp_all

lemma purchasePhase_same_status (db : DB) (o : Order) (st : OrderStatus)
    (h : o.status = st) : purchasePhase db o st = db := by
  unfold purchasePhase
  rw [if_neg (by simp [h])]

lemma restorePhase_same_status (db : DB) (o : Order) (st : OrderStatus)
    (h : o.status = st) : restorePhase db o st = db := by
  unfold restorePhase
  rw [if_neg]
  rintro ⟨h1, h2⟩
  exact h2 (by rw [h]; exact h1)

lemma purchasePhase_no_paid (db : DB) (o : Order) (st : OrderStatus)
    (h1 : st ≠ OrderStatus.paid) (h2 : o.status ≠ OrderStatus.paid) :
    purchasePhase db o st = db := by
  unfold purchasePhase
  split
  · rw [if_neg (by rintro ⟨h3, _⟩; exact h1 h3),
      if_neg (by rintro ⟨h3, _⟩; exact h2 h3)]
  · rfl

lemma restorePhase_from_terminal (db : DB) (o : Order) (st : OrderStatus)
    (h : o.status = OrderStatus.canceled ∨ o.status = OrderStatus.returned) :
    restorePhase db o st = db := by
  unfold restorePhase
  rw [if_neg]
  rintro ⟨_, h2⟩
  exact h2 h

lemma restorePhase_target_not_cr (db : DB) (o : Order) (st : OrderStatus)
    (h : ¬(st = OrderStatus.canceled ∨ st = OrderStatus.returned)) :
    restorePhase db o st = db := by
  unfold restorePhase
  rw [if_neg]
  rintro ⟨h1, _⟩
  exact h h1

lemma purchasePhase_to_paid (db : DB) (o : Order) (h : o.status ≠ OrderStatus.paid) :
    purchasePhase db o OrderStatus.paid = o.items.foldl incPurchaseForItem db := by
  unfold purchasePhase
  rw [if_pos (by exact fun he => h he), if_pos ⟨rfl, h⟩]

lemma purchasePhase_from_paid (db : DB) (o : Order) (st : OrderStatus)
    (h : o.status = OrderStatus.paid) (h2 : st ≠ OrderStatus.paid) :
    purchasePhase db o st = o.items.foldl decPurchaseForItem db := by
  unfold purchasePhase
  rw [if_pos (by rw [h]; exact fun he => h2 he.symm),
    if_neg (by rintro ⟨h3, h4⟩; exact h4 h), if_pos ⟨h, h2⟩]

/-! ## Claims -/

/-- C10: for an `order_id` matching no Order row, `update_order_status` raises
no error and leaves the whole store unchanged (the function only logs and
returns; no StatusEvent, stock, purchase-counter or Order mutation). -/
theorem missing_order_update_is_noop (db : DB) (oid : Nat) (st : OrderStatus)
    (a : String) (ai n : Option String) (h : db.findOrder oid = none) :
    update_order_status db oid st a ai n = db :=
  update_order_status_notfound db oid st a ai n h

/-- Witness for C10 at a concrete store with no order `1`. -/
theorem missing_order_update_is_noop_witness :
    exDB.findOrder 1 = none ∧
    update_order_status exDB 1 OrderStatus.paid "system" none none = exDB :=
  ⟨by decide, missing_order_update_is_noop exDB 1 OrderStatus.paid "system" none none
    (by decide)⟩

/-- C1 counterexample: calling `update_order_status` twice in a row with the
same target is not a no-op the second time — the two calls together append
two StatusEvent rows, not one, and the second call changes state (it appends
a `from = to` audit row). -/
theorem duplicate_transition_appends_second_event :
    update_order_status (update_order_status exDBo 1 OrderStatus.paid "system" none none)
        1 OrderStatus.paid "system" none none ≠
      update_order_status exDBo 1 OrderStatus.paid "system" none none ∧
    (update_order_status (update_order_status exDBo 1 OrderStatus.paid "system" none none)
        1 OrderStatus.paid "system" none none).events.length = 2 ∧
    (update_order_status exDBo 1 OrderStatus.paid "system" none none).events.length = 1 := by
  decide

/-- C1 (amended): replaying `update_order_status` with an unchanged target
leaves every Order, StockVariant, Product and Checkout row exactly as the
first call left them, but appends one more StatusEvent row (with
`from_status = to_status = S`); the two calls together append exactly two
StatusEvent rows, one each. -/
theorem repeat_transition_second_call_effects (db : DB) (oid : Nat)
    (st : OrderStatus) (a1 a2 : String) (ai1 ai2 n1 n2 : Option String) (o : Order)
    (ho : db.findOrder oid = some o) :
    (update_order_status (update_order_status db oid st a1 ai1 n1) oid st a2 ai2 n2).orders =
      (update_order_status db oid st a1 ai1 n1).orders ∧
    (update_order_status (update_order_status db oid st a1 ai1 n1) oid st a2 ai2 n2).variants =
      (update_order_status db oid st a1 ai1 n1).variants ∧
    (update_order_status (update_order_status db oid st a1 ai1 n1) oid st a2 ai2 n2).products =
      (update_order_status db oid st a1 ai1 n1).products ∧
    (update_order_status (update_order_status db oid st a1 ai1 n1) oid st a2 ai2 n2).events =
      (update_order_status db oid st a1 ai1 n1).events ++ [⟨oid, some st, st, a2, ai2, n2⟩] ∧
    (update_order_status db oid st a1 ai1 n1).events =
      db.events ++ [⟨oid, some o.status, st, a1, ai1, n1⟩] := by
  have h1 : (update_order_status db oid st a1 ai1 n1).findOrder oid =
      some { o with status := st } :=
    findOrder_update_self db oid st a1 ai1 n1 o ho
  have hred : update_order_status (update_order_status db oid st a1 ai1 n1) oid st a2 ai2 n2 =
      (record_status_event (update_order_status db oid st a1 ai1 n1)
        { o with status := st } st a2 ai2 n2).setOrderStatus oid st := by
    rw [update_order_status_found _ oid st a2 ai2 n2 _ h1,
      purchasePhase_same_status _ _ _ rfl, restorePhase_same_status _ _ _ rfl]
  refine ⟨?_, ?_, ?_, ?_, update_order_status_events_found db oid st a1 ai1 n1 o ho⟩
  · rw [hred]
    simp only [setOrderStatus_orders, record_status_event_orders]
    refine List.map_congr_left (fun x hx => ?_) |>.trans (List.map_id _)
    by_cases hid : x.id = oid
    · rw [if_pos hid]
      have : x.status = st := by
        rw [update_order_status_orders_found db oid st a1 ai1 n1 o ho] at hx
        rcases List.mem_map.mp hx with ⟨y, _, rfl⟩
        by_cases hy : y.id = oid
        · rw [if_pos hy]
        · rw [if_neg hy] at hid ⊢
          exact absurd hid hy
      exact Order.set_status_self x st this
    · rw [if_neg hid]
      rfl
  · rw [hred]
    simp
  · rw [hred]
    simp
  · rw [hred]
    simp [db.findOrder_id oid o ho]

/-- Witness for C1's amended theorem at a concrete order. -/
theorem repeat_transition_second_call_effects_witness :
    exDBo.findOrder 1 = some exOrder ∧
    ((update_order_status (update_order_status exDBo 1 OrderStatus.paid "s1" none none)
        1 OrderStatus.paid "s2" none none).orders =
      (update_order_status exDBo 1 OrderStatus.paid "s1" none none).orders ∧
    (update_order_status (update_order_status exDBo 1 OrderStatus.paid "s1" none none)
        1 OrderStatus.paid "s2" none none).variants =
      (update_order_status exDBo 1 OrderStatus.paid "s1" none none).variants ∧
    (update_order_status (update_order_status exDBo 1 OrderStatus.paid "s1" none none)
        1 OrderStatus.paid "s2" none none).products =
      (update_order_status exDBo 1 OrderStatus.paid "s1" none none).products ∧
    (update_order_status (update_order_status exDBo 1 OrderStatus.paid "s1" none none)
        1 OrderStatus.paid "s2" none none).events =
      (update_order_status exDBo 1 OrderStatus.paid "s1" none none).events ++
        [⟨1, some OrderStatus.paid, OrderStatus.paid, "s2", none, none⟩] ∧
    (update_order_status exDBo 1 OrderStatus.paid "s1" none none).events =
      exDBo.events ++ [⟨1, some exOrder.status, OrderStatus.paid, "s1", none, none⟩]) :=
  ⟨by decide, repeat_transition_second_call_effects exDBo 1 OrderStatus.paid
    "s1" "s2" none none none none exOrder (by decide)⟩

/-- C4: transitioning to CANCELED or RETURNED from a status outside that pair
adds each item's quantity back to its StockVariant (when item variant ids are
pairwise distinct and the variants exist), and replaying the transition — or
later moving between CANCELED and RETURNED — never changes any stock again. -/
theorem cancel_or_return_restores_stock_once (db : DB) (oid : Nat)
    (target : OrderStatus) (a : String) (ai n : Option String) (o : Order)
    (ho : db.findOrder oid = some o)
    (htgt : target = OrderStatus.canceled ∨ target = OrderStatus.returned)
    (hold : ¬(o.status = OrderStatus.canceled ∨ o.status = OrderStatus.returned))
    (hnd : (o.items.map (fun it => it.product_variant_id)).Nodup) :
    (∀ it ∈ o.items, ∀ v, db.findVariant it.product_variant_id = some v →
      (update_order_status db oid target a ai n).findVariant it.product_variant_id =
        some { v with stock_quantity := v.stock_quantity + it.quantity }) ∧
    (∀ target2 a2 ai2 n2,
      (target2 = OrderStatus.canceled ∨ target2 = OrderStatus.returned) →
      (update_order_status (update_order_status db oid target a ai n) oid target2
        a2 ai2 n2).variants = (update_order_status db oid target a ai n).variants) := by
  have hvars : (update_order_status db oid target a ai n).variants =
      (o.items.foldl restoreStockForItem (purchasePhase db o target)).variants := by
    rw [update_order_status_found db oid target a ai n o ho]
    simp only [DB.setOrderStatus_variants, record_status_event_variants]
    unfold restorePhase
    rw [if_pos ⟨htgt, hold⟩]
  constructor
  · intro it hit v hv
    rw [findVariant_congr _ _ hvars]
    exact restore_fold_self o.items (purchasePhase db o target) hnd it hit v
      (by rw [findVariant_congr _ db (purchasePhase_variants db o target)]; exact hv)
  · intro target2 a2 ai2 n2 htgt2
    have h1 : (update_order_status db oid target a ai n).findOrder oid =
        some { o with status := target } :=
      findOrder_update_self db oid target a ai n o ho
    rw [update_order_status_found _ oid target2 a2 ai2 n2 _ h1,
      purchasePhase_no_paid _ _ _
        (by rcases htgt2 with rfl | rfl <;> simp)
        (by show target ≠ OrderStatus.paid; rcases htgt with rfl | rfl <;> simp),
      restorePhase_from_terminal _ _ _
        (by show target = OrderStatus.canceled ∨ target = OrderStatus.returned; exact htgt)]
    simp

/-- Witness for C4: a CREATED order with one line of variant 1000 (stock 3)
is canceled; the variant's stock becomes 4 and a replay changes nothing. -/
theorem cancel_or_return_restores_stock_once_witness :
    (exDBo.findOrder 1 = some exOrder ∧
     (OrderStatus.canceled = OrderStatus.canceled ∨
       OrderStatus.canceled = OrderStatus.returned) ∧
     ¬(exOrder.status = OrderStatus.canceled ∨ exOrder.status = OrderStatus.returned) ∧
     (exOrder.items.map (fun it => it.product_variant_id)).Nodup) ∧
    ((∀ it ∈ exOrder.items, ∀ v, exDBo.findVariant it.product_variant_id = some v →
      (update_order_status exDBo 1 OrderStatus.canceled "admin" none none).findVariant
          it.product_variant_id =
        some { v with stock_quantity := v.stock_quantity + it.quantity }) ∧
    (∀ target2 a2 ai2 n2,
      (target2 = OrderStatus.canceled ∨ target2 = OrderStatus.returned) →
      (update_order_status (update_order_status exDBo 1 OrderStatus.canceled "admin" none none)
        1 target2 a2 ai2 n2).variants =
        (update_order_status exDBo 1 OrderStatus.canceled "admin" none none).variants)) :=
  ⟨⟨by decide, by decide, by decide, by decide⟩,
    cancel_or_return_restores_stock_once exDBo 1 OrderStatus.canceled "admin" none none
      exOrder (by decide) (by decide) (by decide) (by decide)⟩

/-- C5: a transition entering PAID from a non-PAID status adds each item's
quantity to its product's purchase counter, and a transition leaving PAID
sets each counter to `max 0 (count - quantity)` — floored at zero, never
negative (items assumed to resolve to pairwise distinct products). -/
theorem paid_transitions_adjust_purchase_counts (db : DB) (oid : Nat)
    (a : String) (ai n : Option String) (o : Order)
    (ho : db.findOrder oid = some o)
    (hnd : (o.items.filterMap (itemPid db)).Nodup) :
    (o.status ≠ OrderStatus.paid →
      ∀ it ∈ o.items, ∀ v p, db.findVariant it.product_variant_id = some v →
        db.findProduct v.product_id = some p →
        (update_order_status db oid OrderStatus.paid a ai n).findProduct v.product_id =
          some { p with purchase_count := p.purchase_count + it.quantity }) ∧
    (o.status = OrderStatus.paid →
      ∀ target2, target2 ≠ OrderStatus.paid →
      ∀ it ∈ o.items, ∀ v p, db.findVariant it.product_variant_id = some v →
        db.findProduct v.product_id = some p →
        (update_order_status db oid target2 a ai n).findProduct v.product_id =
          some { p with purchase_count := max 0 (p.purchase_count - it.quantity) } ∧
        0 ≤ max 0 (p.purchase_count - it.quantity)) := by
  constructor
  · intro hnp it hit v p hv hp
    have hprods : (update_order_status db oid OrderStatus.paid a ai n).products =
        (o.items.foldl incPurchaseForItem db).products := by
      rw [update_order_status_found db oid OrderStatus.paid a ai n o ho,
        restorePhase_target_not_cr _ _ _ (by rintro (h | h) <;> cases h),
        purchasePhase_to_paid db o hnp]
      simp
    rw [findProduct_congr _ _ hprods]
    exact inc_fold_self o.items db hnd it hit v p hv hp
  · intro hpaid target2 hnp2 it hit v p hv hp
    have hprods : (update_order_status db oid target2 a ai n).products =
        (o.items.foldl decPurchaseForItem db).products := by
      rw [update_order_status_found db oid target2 a ai n o ho,
        purchasePhase_from_paid db o target2 hpaid hnp2]
      simp [restorePhase_products]
    refine ⟨?_, le_max_left 0 _⟩
    rw [findProduct_congr _ _ hprods]
    exact dec_fold_self o.items db hnd it hit v p hv hp

/-- Witness for C5 at a concrete CREATED order entering PAID: product 100's
counter goes from 0 to 1. -/
theorem paid_transitions_adjust_purchase_counts_witness :
    (exDBo.findOrder 1 = some exOrder ∧
     (exOrder.items.filterMap (itemPid exDBo)).Nodup) ∧
    ((exOrder.status ≠ OrderStatus.paid →
      ∀ it ∈ exOrder.items, ∀ v p, exDBo.findVariant it.product_variant_id = some v →
        exDBo.findProduct v.product_id = some p →
        (update_order_status exDBo 1 OrderStatus.paid "system" none none).findProduct
            v.product_id =
          some { p with purchase_count := p.purchase_count + it.quantity }) ∧
    (exOrder.status = OrderStatus.paid →
      ∀ target2, target2 ≠ OrderStatus.paid →
      ∀ it ∈ exOrder.items, ∀ v p, exDBo.findVariant it.product_variant_id = some v →
        exDBo.findProduct v.product_id = some p →
        (update_order_status exDBo 1 target2 "system" none none).findProduct v.product_id =
          some { p with purchase_count := max 0 (p.purchase_count - it.quantity) } ∧
        0 ≤ max 0 (p.purchase_count - it.quantity))) :=
  ⟨⟨by decide, by decide⟩,
    paid_transitions_adjust_purchase_counts exDBo 1 "system" none none exOrder
      (by decide) (by decide)⟩

/-- C9 counterexample: an admin cancel request for an order already in the
terminal state RETURNED does not fail — it succeeds and forces the order to
CANCELED. -/
theorem admin_cancel_of_returned_order_succeeds :
    (admin_cancel_order
      (Session.ofDB { exDB with orders := [{ exOrder with status := OrderStatus.returned }] })
      true 1 "9").2 = Except.ok "canceled by admin" ∧
    ((admin_cancel_order
      (Session.ofDB { exDB with orders := [{ exOrder with status := OrderStatus.returned }] })
      true 1 "9").1.committed.findOrder 1).map (fun o => o.status) =
      some OrderStatus.canceled := by
  decide

/-- C9 (amended): an admin force-cancel succeeds from every status except
CANCELED itself (including the terminal RETURNED and PARTIALLY_RETURNED),
and is rejected — leaving the store unchanged — only when the order is
already CANCELED. -/
theorem admin_cancel_guard (db : DB) (oid : Nat) (admin_id : String) (o : Order)
    (ho : db.findOrder oid = some o) :
    (o.status ≠ OrderStatus.canceled →
      (admin_cancel_order (Session.ofDB db) true oid admin_id).2 =
        Except.ok "canceled by admin" ∧
      (admin_cancel_order (Session.ofDB db) true oid admin_id).1.committed.findOrder oid =
        some { o with status := OrderStatus.canceled }) ∧
    (o.status = OrderStatus.canceled →
      (admin_cancel_order (Session.ofDB db) true oid admin_id).2 =
        Except.error "order already canceled" ∧
      (admin_cancel_order (Session.ofDB db) true oid admin_id).1.committed = db) := by
  constructor
  · intro hne
    constructor
    · simp [admin_cancel_order, Session.ofDB, ho, hne]
    · simp [admin_cancel_order, Session.ofDB, ho, hne, Session.commit]
      exact findOrder_update_self db oid OrderStatus.canceled "admin" (some admin_id)
        (some "admin cancelled") o ho
  · intro heq
    constructor
    · simp [admin_cancel_order, Session.ofDB, ho, heq]
    · simp [admin_cancel_order, Session.ofDB, ho, heq]

/-- Witness for C9's amended theorem: a CREATED order is force-canceled. -/
theorem admin_cancel_guard_witness :
    exDBo.findOrder 1 = some exOrder ∧
    ((exOrder.status ≠ OrderStatus.canceled →
      (admin_cancel_order (Session.ofDB exDBo) true 1 "9").2 =
        Except.ok "canceled by admin" ∧
      (admin_cancel_order (Session.ofDB exDBo) true 1 "9").1.committed.findOrder 1 =
        some { exOrder with status := OrderStatus.canceled }) ∧
    (exOrder.status = OrderStatus.canceled →
      (admin_cancel_order (Session.ofDB exDBo) true 1 "9").2 =
        Except.error "order already canceled" ∧
      (admin_cancel_order (Session.ofDB exDBo) true 1 "9").1.committed = exDBo)) :=
  ⟨by decide, admin_cancel_guard exDBo 1 "9" exOrder (by decide)⟩

/-- C7: what the vendor endpoints actually do.  (a) For a vendor's own
SHIPPED order — the transition the claim permits — `mark_order_returned`
fails with a `TypeError` (the source calls `update_order_status` without the
`db` session) and commits nothing, so SHIPPED→RETURNED never happens.
(b) For a PAID order the endpoint's guard does not reject the request with
its "Only SHIPPED orders" error (only CANCELED is rejected), contradicting
the endpoint's own docstring.  (c) `update_order_tracking` on a PAID order
with complete tracking likewise dies with the `TypeError` instead of
transitioning to SHIPPED. -/
theorem vendor_transition_endpoints_behavior :
    (mark_order_returned
      (Session.ofDB { exDB with orders := [{ exOrder with status := OrderStatus.shipped }] })
      true 1).2 =
      Except.error "TypeError: update_order_status missing required argument" ∧
    (mark_order_returned
      (Session.ofDB { exDB with orders := [{ exOrder with status := OrderStatus.shipped }] })
      true 1).1.committed =
      { exDB with orders := [{ exOrder with status := OrderStatus.shipped }] } ∧
    (mark_order_returned
      (Session.ofDB { exDB with orders := [{ exOrder with status := OrderStatus.paid }] })
      true 1).2 ≠
      Except.error "Only SHIPPED orders can be marked as returned" ∧
    (update_order_tracking
      (Session.ofDB { exDB with orders := [{ exOrder with status := OrderStatus.paid }] })
      true 1 (some "TRK1") (some "https://t.example/1")).2 =
      Except.error "TypeError: update_order_status missing required argument" ∧
    (update_order_tracking
      (Session.ofDB { exDB with orders := [{ exOrder with status := OrderStatus.paid }] })
      true 1 (some "TRK1") (some "https://t.example/1")).1.committed =
      { exDB with orders := [{ exOrder with status := OrderStatus.paid }] } := by
  decide

lemma le_foldr_max (l : List Nat) (a : Nat) (h : a ∈ l) : a ≤ l.foldr max 0 := by
  induction l with
  | nil => cases h
  | cons b t ih =>
    rcases List.mem_cons.mp h with rfl | h2
    · exact le_max_left _ _
    · exact le_trans (ih h2) (le_max_right _ _)

lemma orders_id_ne_fresh (db : DB) : ∀ o ∈ db.orders, o.id ≠ db.freshOrderId := by
  intro o ho he
  have h1 : o.id ≤ (db.orders.map (fun x => x.id)).foldr max 0 :=
    le_foldr_max _ _ (List.mem_map_of_mem (fun x => x.id) ho)
  rw [he] at h1
  unfold DB.freshOrderId at h1
  omega

lemma find?_orders_append (l : List Order) (order : Order)
    (hfresh : ∀ o ∈ l, o.id ≠ order.id) :
    (l ++ [order]).find? (fun o => o.id = order.id) = some order := by
  rw [List.find?_append, List.find?_eq_none.mpr (fun x hx => by simp [hfresh x hx])]
  simp [List.find?]

lemma processGroup_orders (cur : DB) (cid uid idx : Nat) (base : String)
    (multi : Bool) (bid : Nat) (l : List GroupEntry) :
    (processGroup cur cid uid idx base multi bid l).orders =
      cur.orders ++
        [{ groupNewOrder cur cid uid idx base multi bid l with
            status := OrderStatus.paid }] := by
  simp only [processGroup]
  have hc2 : (l.foldl (fun (c : DB) e => c.adjustStock e.variant_id (-e.qty))
      { cur with orders := cur.orders ++ [groupNewOrder cur cid uid idx base multi bid l] }).orders =
      cur.orders ++ [groupNewOrder cur cid uid idx base multi bid l] := by
    rw [foldl_proj_const DB.orders (fun c e => c.adjustStock e.variant_id (-e.qty))
      (fun db a => rfl) l _]
  have ho : (l.foldl (fun (c : DB) e => c.adjustStock e.variant_id (-e.qty))
      { cur with orders := cur.orders ++ [groupNewOrder cur cid uid idx base multi bid l] }).findOrder
      (groupNewOrder cur cid uid idx base multi bid l).id =
      some (groupNewOrder cur cid uid idx base multi bid l) := by
    unfold DB.findOrder
    rw [hc2]
    exact find?_orders_append _ _ (orders_id_ne_fresh cur)
  rw [update_order_status_orders_found _ _ _ _ _ _ _ ho, hc2, List.map_append]
  congr 1
  · refine (List.map_congr_left (fun x hx => ?_)).trans (List.map_id _)
    have hne : x.id ≠ (groupNewOrder cur cid uid idx base multi bid l).id :=
      orders_id_ne_fresh cur x hx
    rw [if_neg hne]
    rfl
  · simp

lemma processGroup_checkouts (cur : DB) (cid uid idx : Nat) (base : String)
    (multi : Bool) (bid : Nat) (l : List GroupEntry) :
    (processGroup cur cid uid idx base multi bid l).checkouts = cur.checkouts := by
  simp only [processGroup]
  rw [update_order_status_checkouts,
    foldl_proj_const DB.checkouts (fun c e => c.adjustStock e.variant_id (-e.qty))
      (fun db a => rfl) l _]

lemma processGroup_brands (cur : DB) (cid uid idx : Nat) (base : String)
    (multi : Bool) (bid : Nat) (l : List GroupEntry) :
    (processGroup cur cid uid idx base multi bid l).brands = cur.brands := by
  simp only [processGroup]
  rw [update_order_status_brands,
    foldl_proj_const DB.brands (fun c e => c.adjustStock e.variant_id (-e.qty))
      (fun db a => rfl) l _]

lemma processGroup_users (cur : DB) (cid uid idx : Nat) (base : String)
    (multi : Bool) (bid : Nat) (l : List GroupEntry) :
    (processGroup cur cid uid idx base multi bid l).users = cur.users := by
  simp only [processGroup]
  rw [update_order_status_users,
    foldl_proj_const DB.users (fun c e => c.adjustStock e.variant_id (-e.qty))
      (fun db a => rfl) l _]

lemma processGroup_payments (cur : DB) (cid uid idx : Nat) (base : String)
    (multi : Bool) (bid : Nat) (l : List GroupEntry) :
    (processGroup cur cid uid idx base multi bid l).payments = cur.payments := by
  simp only [processGroup]
  rw [update_order_status_payments,
    foldl_proj_const DB.payments (fun c e => c.adjustStock e.variant_id (-e.qty))
      (fun db a => rfl) l _]

lemma groupsTotal_congr (db1 db2 : DB) (h : db1.brands = db2.brands)
    (groups : List (Nat × List GroupEntry)) :
    groupsTotal db1 groups = groupsTotal db2 groups := by
  unfold groupsTotal
  congr 1
  refine List.map_congr_left (fun g _ => ?_)
  unfold compute_shipping_for_brand
  rw [findBrand_congr db1 db2 h]

lemma checkoutOrdersTotal_append_checkout_member (db : DB) (cid : Nat) (o : Order)
    (h : o.checkout_id = some cid) :
    checkoutOrdersTotal { db with orders := db.orders ++ [o] } cid =
      checkoutOrdersTotal db cid + o.total_amount := by
  unfold checkoutOrdersTotal
  show ((db.orders ++ [o]).filter _ |>.map _).sum = _
  rw [List.filter_append, List.map_append, List.sum_append]
  simp [List.filter, h]

lemma processGroups_total (cid uid : Nat) (base : String) (multi : Bool) :
    ∀ (groups : List (Nat × List GroupEntry)) (cur : DB) (idx : Nat),
      checkoutOrdersTotal (processGroups cid uid base multi cur idx groups) cid =
        checkoutOrdersTotal cur cid + groupsTotal cur groups := by
  intro groups
  induction groups with
  | nil => intro cur idx; simp [processGroups, groupsTotal]
  | cons g rest ih =>
    intro cur idx
    obtain ⟨bid, l⟩ := g
    show checkoutOrdersTotal
      (processGroups cid uid base multi (processGroup cur cid uid idx base multi bid l)
        (idx + 1) rest) cid = _
    rw [ih (processGroup cur cid uid idx base multi bid l) (idx + 1)]
    have h1 : checkoutOrdersTotal (processGroup cur cid uid idx base multi bid l) cid =
        checkoutOrdersTotal cur cid +
          (groupSubtotal l + compute_shipping_for_brand cur bid (groupSubtotal l)) := by
      have := checkoutOrdersTotal_append_checkout_member cur cid
        { groupNewOrder cur cid uid idx base multi bid l with status := OrderStatus.paid }
        rfl
      unfold checkoutOrdersTotal at this ⊢
      rw [processGroup_orders]
      rw [show ({ cur with orders := cur.orders ++
        [{ groupNewOrder cur cid uid idx base multi bid l with status := OrderStatus.paid }] } : DB).orders
        = cur.orders ++ [{ groupNewOrder cur cid uid idx base multi bid l with status := OrderStatus.paid }] from rfl] at this
      rw [this]
      rfl
    rw [h1, groupsTotal_congr (processGroup cur cid uid idx base multi bid l) cur
      (processGroup_brands cur cid uid idx base multi bid l) rest]
    unfold groupsTotal
    rw [List.map_cons, List.sum_cons]
    ring

lemma processGroups_checkouts (cid uid : Nat) (base : String) (multi : Bool) :
    ∀ (groups : List (Nat × List GroupEntry)) (cur : DB) (idx : Nat),
      (processGroups cid uid base multi cur idx groups).checkouts = cur.checkouts := by
  intro groups
  induction groups with
  | nil => intro cur idx; rfl
  | cons g rest ih =>
    intro cur idx
    obtain ⟨bid, l⟩ := g
    show (processGroups cid uid base multi
      (processGroup cur cid uid idx base multi bid l) (idx + 1) rest).checkouts = _
    rw [ih _ _, processGroup_checkouts]

lemma processGroups_brands (cid uid : Nat) (base : String) (multi : Bool) :
    ∀ (groups : List (Nat × List GroupEntry)) (cur : DB) (idx : Nat),
      (processGroups cid uid base multi cur idx groups).brands = cur.brands := by
  intro groups
  induction groups with
  | nil => intro cur idx; rfl
  | cons g rest ih =>
    intro cur idx
    obtain ⟨bid, l⟩ := g
    show (processGroups cid uid base multi
      (processGroup cur cid uid idx base multi bid l) (idx + 1) rest).brands = _
    rw [ih _ _, processGroup_brands]

lemma groupNumbers_succ (base : String) (multi : Bool) (idx n : Nat) :
    groupNumbers base multi idx (n + 1) =
      (if multi then base ++ "-" ++ toString (idx + 1) else base) ::
        groupNumbers base multi (idx + 1) n := by
  unfold groupNumbers
  rw [List.range_succ_eq_map, List.map_cons, List.map_map]
  congr 1
  refine List.map_congr_left (fun i _ => ?_)
  show (if multi then base ++ "-" ++ toString (idx + Nat.succ i + 1) else base) = _
  have harith : idx + Nat.succ i + 1 = idx + 1 + i + 1 := by omega
  rw [harith]

lemma checkoutOrderNumbers_payments_eq (db : DB) (cid : Nat) (ps : List Payment) :
    checkoutOrderNumbers { db with payments := ps } cid = checkoutOrderNumbers db cid := rfl

lemma processGroups_numbers (cid uid : Nat) (base : String) (multi : Bool) :
    ∀ (groups : List (Nat × List GroupEntry)) (cur : DB) (idx : Nat),
      checkoutOrderNumbers (processGroups cid uid base multi cur idx groups) cid =
        checkoutOrderNumbers cur cid ++ groupNumbers base multi idx groups.length := by
  intro groups
  induction groups with
  | nil => intro cur idx; simp [processGroups, groupNumbers]
  | cons g rest ih =>
    intro cur idx
    obtain ⟨bid, l⟩ := g
    show checkoutOrderNumbers (processGroups cid uid base multi
      (processGroup cur cid uid idx base multi bid l) (idx + 1) rest) cid = _
    rw [ih _ _]
    have h1 : checkoutOrderNumbers (processGroup cur cid uid idx base multi bid l) cid =
        checkoutOrderNumbers cur cid ++
          [if multi then base ++ "-" ++ toString (idx + 1) else base] := by
      unfold checkoutOrderNumbers
      rw [processGroup_orders]
      show ((cur.orders ++ _).filter _ |>.map _) = _
      rw [List.filter_append, List.map_append]
      congr 1
      simp [groupNewOrder, List.filter]
    rw [h1, List.length_cons, groupNumbers_succ, List.append_assoc]
    rfl

lemma create_order_test_ok_eq (db : DB) (uid : Nat) (amount : Int)
    (currency : String) (items : List CartItem) (candidates : List String)
    (pid : String) (u : UserRec) (groups : List (Nat × List GroupEntry))
    (base : String)
    (hu : db.findUser uid = some u) (hd : u.delivery_ok = true)
    (hg : groupItems db items [] = Except.ok groups)
    (hb : generate_order_number candidates db.orderNumbers = some base) :
    create_order_test (Session.ofDB db) uid amount currency items candidates pid =
      ({ committed := createOrderTestFinal db uid amount currency groups base pid
         current := createOrderTestFinal db uid amount currency groups base pid },
       Except.ok db.freshCheckoutId) := by
  have hb2 : generate_order_number candidates
      ({ db with checkouts :=
        db.checkouts ++ [⟨db.freshCheckoutId, uid, amount⟩] } : DB).orderNumbers =
      some base := hb
  simp only [create_order_test, Session.ofDB, hu, hd, hb2, hg, not_true_eq_false,
    if_false, createOrderTestFinal, Session.commit]

/-- C3 counterexample: a failed live-mode `create_payment` (variant 9999 does
not exist) leaves a committed Order row behind — the bare order is committed
before the items are validated — although no OrderItem, stock decrement or
Payment row survives. -/
theorem create_payment_failure_persists_order :
    (create_payment (Session.ofDB exDBo) 1 100 "RUB" [⟨9999, 1⟩] ["77777"]
      ⟨"gw1", 100, "RUB", "pending", "https://pay"⟩).2 =
        Except.error "variant not found" ∧
    (create_payment (Session.ofDB exDBo) 1 100 "RUB" [⟨9999, 1⟩] ["77777"]
      ⟨"gw1", 100, "RUB", "pending", "https://pay"⟩).1.committed.orders.length =
      exDBo.orders.length + 1 ∧
    ((create_payment (Session.ofDB exDBo) 1 100 "RUB" [⟨9999, 1⟩] ["77777"]
      ⟨"gw1", 100, "RUB", "pending", "https://pay"⟩).1.committed.orders.map
        (fun o => o.order_number)).contains "77777" = true ∧
    (create_payment (Session.ofDB exDBo) 1 100 "RUB" [⟨9999, 1⟩] ["77777"]
      ⟨"gw1", 100, "RUB", "pending", "https://pay"⟩).1.committed.variants =
      exDBo.variants ∧
    (create_payment (Session.ofDB exDBo) 1 100 "RUB" [⟨9999, 1⟩] ["77777"]
      ⟨"gw1", 100, "RUB", "pending", "https://pay"⟩).1.committed.payments =
      exDBo.payments := by
  decide

/-- C3 (amended): the test-mode checkout `create_order_test` is atomic — if it
returns an error, the committed store is exactly the store the session was
opened on: no Checkout, Order, OrderItem, Payment row and no stock decrement
from the attempt survives. -/
theorem create_order_test_failure_atomic (db : DB) (uid : Nat) (amount : Int)
    (currency : String) (items : List CartItem) (candidates : List String)
    (pid : String) (e : String)
    (he : (create_order_test (Session.ofDB db) uid amount currency items candidates
      pid).2 = Except.error e) :
    (create_order_test (Session.ofDB db) uid amount currency items candidates
      pid).1.committed = db := by
  cases hu : db.findUser uid with
  | none => simp [create_order_test, Session.ofDB, hu]
  | some u =>
    cases hd : u.delivery_ok with
    | false => simp [create_order_test, Session.ofDB, hu, hd]
    | true =>
      cases hg : groupItems db items [] with
      | error e2 => simp [create_order_test, Session.ofDB, hu, hd, hg]
      | ok groups =>
        cases hb : generate_order_number candidates db.orderNumbers with
        | none =>
          have hb2 : generate_order_number candidates
              ({ db with checkouts :=
                db.checkouts ++ [⟨db.freshCheckoutId, uid, amount⟩] } : DB).orderNumbers =
              none := hb
          simp [create_order_test, Session.ofDB, hu, hd, hg, hb2]
        | some base =>
          rw [create_order_test_ok_eq db uid amount currency items candidates pid
            u groups base hu hd hg hb] at he
          cases he

/-- Witness for C3's amended theorem: a checkout for the unknown buyer 99
fails and commits nothing. -/
theorem create_order_test_failure_atomic_witness :
    (create_order_test (Session.ofDB exDB) 99 50 "RUB" exCart ["12345"] "p").2 =
      Except.error "user not found" ∧
    (create_order_test (Session.ofDB exDB) 99 50 "RUB" exCart ["12345"] "p").1.committed =
      exDB :=
  ⟨by decide, create_order_test_failure_atomic exDB 99 50 "RUB" exCart ["12345"] "p"
    "user not found" (by decide)⟩

/-- C2 counterexample: a successful test-mode checkout whose caller passes
`amount = 0` for the scenario cart persists `Checkout.total_amount = 0` while
its two orders' totals sum to 115 — the computed `total_checkout` is never
written back. -/
theorem checkout_total_not_sum_of_orders :
    (create_order_test (Session.ofDB exDB) 1 0 "RUB" exCart ["12345"] "p").2 =
      Except.ok 1 ∧
    (create_order_test (Session.ofDB exDB) 1 0 "RUB" exCart
      ["12345"] "p").1.committed.checkouts =
      [{ id := 1, user_id := 1, total_amount := 0 }] ∧
    checkoutOrdersTotal
      (create_order_test (Session.ofDB exDB) 1 0 "RUB" exCart ["12345"] "p").1.committed
      1 = 115 := by
  decide

/-- C2 (amended): on success the persisted `Checkout.total_amount` is exactly
the caller-supplied `amount`, while the checkout's orders' totals sum to the
loop's computed Σ(subtotal + shipping) — so the two agree iff the caller
passes that computed sum. -/
theorem checkout_total_is_caller_amount (db : DB) (uid : Nat) (amount : Int)
    (currency : String) (items : List CartItem) (candidates : List String)
    (pid : String) (u : UserRec) (groups : List (Nat × List GroupEntry))
    (base : String)
    (hu : db.findUser uid = some u) (hd : u.delivery_ok = true)
    (hg : groupItems db items [] = Except.ok groups)
    (hb : generate_order_number candidates db.orderNumbers = some base)
    (hfk : ∀ o ∈ db.orders, o.checkout_id ≠ some db.freshCheckoutId) :
    (create_order_test (Session.ofDB db) uid amount currency items candidates pid).2 =
      Except.ok db.freshCheckoutId ∧
    (∃ ck ∈ (create_order_test (Session.ofDB db) uid amount currency items candidates
        pid).1.committed.checkouts,
      ck.id = db.freshCheckoutId ∧ ck.total_amount = amount) ∧
    checkoutOrdersTotal
      (create_order_test (Session.ofDB db) uid amount currency items candidates
        pid).1.committed db.freshCheckoutId = groupsTotal db groups ∧
    (checkoutOrdersTotal
      (create_order_test (Session.ofDB db) uid amount currency items candidates
        pid).1.committed db.freshCheckoutId = amount ↔
      amount = groupsTotal db groups) := by
  rw [create_order_test_ok_eq db uid amount currency items candidates pid
    u groups base hu hd hg hb]
  have hcks : (createOrderTestFinal db uid amount currency groups base pid).checkouts =
      db.checkouts ++ [⟨db.freshCheckoutId, uid, amount⟩] := by
    show (processGroups db.freshCheckoutId uid base (decide (groups.length > 1))
      { db with checkouts := db.checkouts ++ [⟨db.freshCheckoutId, uid, amount⟩] }
      0 groups).checkouts = _
    rw [processGroups_checkouts]
  have htot : checkoutOrdersTotal
      (createOrderTestFinal db uid amount currency groups base pid)
      db.freshCheckoutId = groupsTotal db groups := by
    show checkoutOrdersTotal (processGroups db.freshCheckoutId uid base
      (decide (groups.length > 1))
      { db with checkouts := db.checkouts ++ [⟨db.freshCheckoutId, uid, amount⟩] }
      0 groups) db.freshCheckoutId = _
    rw [processGroups_total]
    have h0 : checkoutOrdersTotal
        ({ db with checkouts := db.checkouts ++ [⟨db.freshCheckoutId, uid, amount⟩] } : DB)
        db.freshCheckoutId = 0 := by
      unfold checkoutOrdersTotal
      rw [show ({ db with checkouts :=
        db.checkouts ++ [⟨db.freshCheckoutId, uid, amount⟩] } : DB).orders = db.orders from rfl]
      rw [List.filter_eq_nil_iff.mpr (fun o ho => by simp [hfk o ho])]
      rfl
    rw [h0, groupsTotal_congr
      ({ db with checkouts := db.checkouts ++ [⟨db.freshCheckoutId, uid, amount⟩] } : DB)
      db rfl groups, zero_add]
  refine ⟨rfl, ⟨⟨db.freshCheckoutId, uid, amount⟩, ?_, rfl, rfl⟩, htot, ?_⟩
  · rw [hcks]
    exact List.mem_append.mpr (Or.inr (List.mem_singleton.mpr rfl))
  · rw [htot]
    exact eq_comm

/-- Witness for C2's amended theorem at the scenario cart with amount 115. -/
theorem checkout_total_is_caller_amount_witness :
    (exDB.findUser 1 = some ⟨1, true⟩ ∧
     groupItems exDB exCart [] = Except.ok
       [(10, [⟨1000, 1, 50⟩, ⟨1001, 1, 30⟩]), (20, [⟨1002, 1, 20⟩])] ∧
     generate_order_number ["12345"] exDB.orderNumbers = some "12345") ∧
    ((create_order_test (Session.ofDB exDB) 1 115 "RUB" exCart ["12345"] "p").2 =
      Except.ok exDB.freshCheckoutId ∧
    (∃ ck ∈ (create_order_test (Session.ofDB exDB) 1 115 "RUB" exCart
        ["12345"] "p").1.committed.checkouts,
      ck.id = exDB.freshCheckoutId ∧ ck.total_amount = 115) ∧
    checkoutOrdersTotal
      (create_order_test (Session.ofDB exDB) 1 115 "RUB" exCart
        ["12345"] "p").1.committed exDB.freshCheckoutId =
      groupsTotal exDB [(10, [⟨1000, 1, 50⟩, ⟨1001, 1, 30⟩]), (20, [⟨1002, 1, 20⟩])] ∧
    (checkoutOrdersTotal
      (create_order_test (Session.ofDB exDB) 1 115 "RUB" exCart
        ["12345"] "p").1.committed exDB.freshCheckoutId = 115 ↔
      (115 : Int) = groupsTotal exDB
        [(10, [⟨1000, 1, 50⟩, ⟨1001, 1, 30⟩]), (20, [⟨1002, 1, 20⟩])])) :=
  ⟨⟨by decide, by decide, by decide⟩,
    checkout_total_is_caller_amount exDB 1 115 "RUB" exCart ["12345"] "p"
      ⟨1, true⟩ [(10, [⟨1000, 1, 50⟩, ⟨1001, 1, 30⟩]), (20, [⟨1002, 1, 20⟩])] "12345"
      (by decide) (by decide) (by decide) (by decide) (by decide)⟩

/-- C6 counterexample: a vendor whose configured shipping price is `0.0` is
charged the platform default 350, not its configured 0 — Python's
`shipping_price or DEFAULT_SHIPPING_PRICE` treats `0.0` as falsy — so a
single-line checkout for that vendor totals 400, not 50. -/
theorem zero_shipping_price_uses_default :
    compute_shipping_for_brand { exDB with brands := [⟨30, none, some 0⟩] } 30 50 = 350 ∧
    claimed_shipping none (some 0) 50 = 0 ∧
    ((create_order_test
      (Session.ofDB { exDB with brands := [⟨10, none, some 0⟩, ⟨20, none, some 5⟩] })
      1 400 "RUB" [⟨1000, 1⟩] ["54321"] "p").1.committed.orders.map
        (fun o => (o.order_number, o.total_amount, o.shipping_cost))) =
      [("54321", 400, some 350)] := by
  decide

/-- C6 (amended): shipping is 0 when the vendor has a free-shipping threshold
the subtotal reaches; otherwise it is the vendor's configured price when that
is set and nonzero, and the platform default 350 when the price is unset *or
zero* (or the vendor row is missing); each vendor group's order carries
subtotal Σ(price × qty), that shipping cost, and total = subtotal + shipping;
the spec's two-vendor scenario yields orders with totals 90 and 25. -/
theorem shipping_formula_and_scenario :
    (∀ (db : DB) (bid : Nat) (subtotal : Int) (b : Brand),
      db.findBrand bid = some b → b.shipping_price ≠ some 0 →
      compute_shipping_for_brand db bid subtotal =
        claimed_shipping b.min_free_shipping b.shipping_price subtotal) ∧
    (∀ (cur : DB) (cid uid idx : Nat) (base : String) (multi : Bool) (bid : Nat)
      (l : List GroupEntry),
      (processGroup cur cid uid idx base multi bid l).orders =
        cur.orders ++
          [{ groupNewOrder cur cid uid idx base multi bid l with
              status := OrderStatus.paid }] ∧
      (groupNewOrder cur cid uid idx base multi bid l).subtotal =
        some (groupSubtotal l) ∧
      (groupNewOrder cur cid uid idx base multi bid l).shipping_cost =
        some (compute_shipping_for_brand cur bid (groupSubtotal l)) ∧
      (groupNewOrder cur cid uid idx base multi bid l).total_amount =
        groupSubtotal l + compute_shipping_for_brand cur bid (groupSubtotal l)) ∧
    ((create_order_test (Session.ofDB exDB) 1 115 "RUB" exCart
      ["12345"] "p").1.committed.orders.map
        (fun o => (o.order_number, o.total_amount))) =
      [("12345-1", 90), ("12345-2", 25)] := by
  refine ⟨?_, ?_, by decide⟩
  · intro db bid subtotal b hb hnz
    cases hm : b.min_free_shipping with
    | some m =>
      cases hs : b.shipping_price with
      | none => simp [compute_shipping_for_brand, claimed_shipping, hb, hs, hm]
      | some sp =>
        have hsp : ¬ sp = 0 := fun h0 => hnz (by rw [hs, h0])
        simp [compute_shipping_for_brand, claimed_shipping, hb, hs, hm, hsp]
    | none =>
      cases hs : b.shipping_price with
      | none => simp [compute_shipping_for_brand, claimed_shipping, hb, hs, hm]
      | some sp =>
        have hsp : ¬ sp = 0 := fun h0 => hnz (by rw [hs, h0])
        simp [compute_shipping_for_brand, claimed_shipping, hb, hs, hm, hsp]
  · intro cur cid uid idx base multi bid l
    exact ⟨processGroup_orders cur cid uid idx base multi bid l, rfl, rfl, rfl⟩

/-- Witness for C6's amended theorem: brand A of the scenario store at
subtotal 80 (below its threshold 100) ships for its configured 10. -/
theorem shipping_formula_and_scenario_witness :
    (exDB.findBrand 10 = some ⟨10, some 100, some 10⟩ ∧
     (⟨10, some 100, some 10⟩ : Brand).shipping_price ≠ some 0) ∧
    compute_shipping_for_brand exDB 10 80 =
      claimed_shipping (some 100) (some 10) 80 :=
  ⟨⟨by decide, by decide⟩,
    shipping_formula_and_scenario.1 exDB 10 80 ⟨10, some 100, some 10⟩
      (by decide) (by decide)⟩

lemma generate_order_number_spec (candidates existing : List String) (base : String)
    (h : generate_order_number candidates existing = some base) :
    base ∈ candidates ∧ base ∉ existing := by
  unfold generate_order_number at h
  refine ⟨List.mem_of_find?_eq_some h, ?_⟩
  have hp := List.find?_some h
  simp only [Bool.not_eq_true'] at hp
  intro hmem
  rw [List.contains_eq_any_beq] at hp
  simp [List.any_eq_true] at hp
  exact hp base hmem rfl


/-- C8: persisted order numbers stay unique across all orders.  Under the
standing uniqueness invariant on the existing rows, any run of the checkout
(with the `orders.order_number` UNIQUE constraint of `models.py:496` in
force) leaves the committed store's order numbers pairwise distinct; the
drawn base is a fresh 5-digit numeric string; on success the checkout's
orders are numbered with the shared base, `-N`-suffixed (N the 1-based
vendor-group index) exactly when there is more than one vendor group; and a
run that fails — in particular one whose suffixed number would duplicate a
persisted one, which the constraint aborts at flush — commits nothing. -/
theorem persisted_order_numbers_unique (db : DB) (uid : Nat) (amount : Int)
    (currency : String) (items : List CartItem) (candidates : List String)
    (pid : String) (u : UserRec) (groups : List (Nat × List GroupEntry))
    (base : String)
    (hnd : db.orderNumbers.Nodup)
    (hu : db.findUser uid = some u) (hd : u.delivery_ok = true)
    (hg : groupItems db items [] = Except.ok groups)
    (hb : generate_order_number candidates db.orderNumbers = some base)
    (hfk : ∀ o ∈ db.orders, o.checkout_id ≠ some db.freshCheckoutId)
    (hcand : ∀ c ∈ candidates, c.length = 5 ∧ c.toList.all Char.isDigit = true) :
    (create_order_test_checked (Session.ofDB db) uid amount currency items candidates
      pid).1.committed.orderNumbers.Nodup ∧
    base ∉ db.orderNumbers ∧
    base.length = 5 ∧ base.toList.all Char.isDigit = true ∧
    ((create_order_test_checked (Session.ofDB db) uid amount currency items candidates
      pid).2 = Except.ok db.freshCheckoutId →
      checkoutOrderNumbers
        (create_order_test_checked (Session.ofDB db) uid amount currency items
          candidates pid).1.committed db.freshCheckoutId =
        groupNumbers base (decide (groups.length > 1)) 0 groups.length) ∧
    (∀ e, (create_order_test_checked (Session.ofDB db) uid amount currency items
      candidates pid).2 = Except.error e →
      (create_order_test_checked (Session.ofDB db) uid amount currency items
        candidates pid).1.committed = db) := by
  obtain ⟨hmem, hnotin⟩ := generate_order_number_spec candidates db.orderNumbers base hb
  obtain ⟨hlen, hdig⟩ := hcand base hmem
  have hred : create_order_test_checked (Session.ofDB db) uid amount currency items
      candidates pid =
      (if (createOrderTestFinal db uid amount currency groups base pid).orderNumbers.Nodup
       then (({ committed := createOrderTestFinal db uid amount currency groups base pid
                current := createOrderTestFinal db uid amount currency groups base pid } :
              Session),
             Except.ok db.freshCheckoutId)
       else (({ committed := db
                current := createOrderTestFinal db uid amount currency groups base pid } :
              Session),
             Except.error "IntegrityError: duplicate order_number")) := by
    unfold create_order_test_checked
    rw [create_order_test_ok_eq db uid amount currency items candidates pid
      u groups base hu hd hg hb]
    rfl
  rw [hred]
  by_cases hNodup :
    (createOrderTestFinal db uid amount currency groups base pid).orderNumbers.Nodup
  · rw [if_pos hNodup]
    refine ⟨hNodup, hnotin, hlen, hdig, fun _ => ?_, fun e he => Except.noConfusion he⟩
    show checkoutOrderNumbers (processGroups db.freshCheckoutId uid base
      (decide (groups.length > 1))
      { db with checkouts := db.checkouts ++ [⟨db.freshCheckoutId, uid, amount⟩] }
      0 groups) db.freshCheckoutId = _
    rw [processGroups_numbers]
    have h0 : checkoutOrderNumbers
        ({ db with checkouts := db.checkouts ++ [⟨db.freshCheckoutId, uid, amount⟩] } : DB)
        db.freshCheckoutId = [] := by
      unfold checkoutOrderNumbers
      rw [show ({ db with checkouts :=
        db.checkouts ++ [⟨db.freshCheckoutId, uid, amount⟩] } : DB).orders = db.orders from rfl]
      rw [List.filter_eq_nil_iff.mpr (fun o ho => by simp [hfk o ho])]
      rfl
    rw [h0, List.nil_append]
  · rw [if_neg hNodup]
    exact ⟨hnd, hnotin, hlen, hdig, fun hok => Except.noConfusion hok, fun e he => rfl⟩

/-- Witness for C8 at the scenario store (no pre-existing orders, two vendor
groups): the run succeeds with unique numbers `12345-1`, `12345-2`. -/
theorem persisted_order_numbers_unique_witness :
    (exDB.orderNumbers.Nodup ∧
     exDB.findUser 1 = some ⟨1, true⟩ ∧
     groupItems exDB exCart [] = Except.ok
       [(10, [⟨1000, 1, 50⟩, ⟨1001, 1, 30⟩]), (20, [⟨1002, 1, 20⟩])] ∧
     generate_order_number ["12345"] exDB.orderNumbers = some "12345") ∧
    ((create_order_test_checked (Session.ofDB exDB) 1 115 "RUB" exCart
      ["12345"] "p").1.committed.orderNumbers.Nodup ∧
    "12345" ∉ exDB.orderNumbers ∧
    ("12345" : String).length = 5 ∧ ("12345" : String).toList.all Char.isDigit = true ∧
    ((create_order_test_checked (Session.ofDB exDB) 1 115 "RUB" exCart
      ["12345"] "p").2 = Except.ok exDB.freshCheckoutId →
      checkoutOrderNumbers
        (create_order_test_checked (Session.ofDB exDB) 1 115 "RUB" exCart
          ["12345"] "p").1.committed exDB.freshCheckoutId =
        groupNumbers "12345"
          (decide (([(10, [(⟨1000, 1, 50⟩ : GroupEntry), ⟨1001, 1, 30⟩]),
            (20, [⟨1002, 1, 20⟩])] : List (Nat × List GroupEntry)).length > 1)) 0
          ([(10, [(⟨1000, 1, 50⟩ : GroupEntry), ⟨1001, 1, 30⟩]),
            (20, [⟨1002, 1, 20⟩])] : List (Nat × List GroupEntry)).length) ∧
    (∀ e, (create_order_test_checked (Session.ofDB exDB) 1 115 "RUB" exCart
      ["12345"] "p").2 = Except.error e →
      (create_order_test_checked (Session.ofDB exDB) 1 115 "RUB" exCart
        ["12345"] "p").1.committed = exDB)) :=
  ⟨⟨by decide, by decide, by decide, by decide⟩,
    persisted_order_numbers_unique exDB 1 115 "RUB" exCart ["12345"] "p" ⟨1, true⟩
      [(10, [⟨1000, 1, 50⟩, ⟨1001, 1, 30⟩]), (20, [⟨1002, 1, 20⟩])] "12345"
      (by decide) (by decide) (by decide) (by decide) (by decide) (by decide)
      (by intro c hc; cases List.mem_singleton.mp hc; exact ⟨by decide, by decide⟩)⟩
